import Mathlib

set_option maxRecDepth 100000
set_option maxHeartbeats 1000000

/-
Verification development for the race-performance prediction and training-plan
generation engine of the runnr repository (src/lib/strava.ts predictions and
pacing, src/lib/training-plan.ts, src/lib/utils.ts formatting helpers).

Modeling conventions, applied uniformly:
- TypeScript numbers are modeled as exact rationals; floating-point rounding
  noise is below every threshold the code compares against.
- Date values (ISO strings and Date objects) are modeled as integer epoch
  milliseconds; the ambient clock read by new Date() is an explicit `now`
  parameter of every function that consults it.
- A JS Array.reduce with initial value 0 adding one summand per element is
  rendered as List.sum of the corresponding List.map; Array.sort with a
  numeric comparator is the stable List.mergeSort on the matching relation.
- TS string-literal union types are rendered as inductive types.
- Math.pow(x, 0.06) and Math.log are transcendental, so they are taken as
  function parameters (rpow06, jsLn); no verified claim depends on their
  values, only on whether a pace was derived at all.
-/

namespace Runnr

/-! JavaScript numeric primitives -/

/-- JS Math.floor. -/
def jsFloor (q : ℚ) : ℤ := ⌊q⌋

/-- JS Math.ceil. -/
def jsCeil (q : ℚ) : ℤ := ⌈q⌉

/-- Truncation toward zero, the rounding used by the JS remainder operator. -/
def jsTrunc (q : ℚ) : ℤ := if 0 ≤ q then ⌊q⌋ else ⌈q⌉

/-- JS remainder operator a % b (sign follows the dividend). -/
def jsMod (a b : ℚ) : ℚ := a - b * (jsTrunc (a / b) : ℚ)

/-- JS Math.round: nearest integer, ties toward positive infinity. -/
def jsRound (q : ℚ) : ℤ := ⌊q + 1/2⌋

/-- Rounding to one decimal, the pervasive Math.round(x * 10) / 10 idiom. -/
def round1 (q : ℚ) : ℚ := (jsRound (q * 10) : ℚ) / 10

/-- JS String.prototype.padStart(2, "0") on the rendering of an integer
(the arguments rendered in this codebase are never empty strings). -/
def padStart2 (s : String) : String := if s.length < 2 then "0" ++ s else s

/-- JS template-literal rendering of an interpolated number. Every number the
source interpolates into a description is an integer or a result of one-decimal
rounding, so integer and tenths cases cover all reachable inputs; the final
expression also renders any denominator dividing ten exactly. -/
def jsNumToString (q : ℚ) : String :=
  if q.den = 1 then toString q.num
  else
    (if q.num < 0 then "-" else "") ++ toString (q.num.natAbs / q.den) ++ "." ++
      toString (q.num.natAbs % q.den * 10 / q.den)

/-- JS Number.prototype.toFixed(1): nearest-tenth rendering with a mandatory
single decimal digit. -/
def toFixed1 (q : ℚ) : String :=
  let n : ℤ := jsRound (q * 10)
  (if n < 0 then "-" else "") ++ toString (n.natAbs / 10) ++ "." ++ toString (n.natAbs % 10)

/-! Formatting helpers from src/lib/utils.ts -/

/-- formatRaceTime from utils.ts: total minutes to H:MM:SS or M:SS. -/
def formatRaceTime (totalMinutes : ℚ) : String :=
  let hours : ℤ := jsFloor (totalMinutes / 60)
  let minutes : ℤ := jsFloor (jsMod totalMinutes 60)
  let seconds : ℤ := jsRound (jsMod totalMinutes 1 * 60)
  if hours > 0 then
    toString hours ++ ":" ++ padStart2 (toString minutes) ++ ":" ++ padStart2 (toString seconds)
  else
    toString minutes ++ ":" ++ padStart2 (toString seconds)

/-- formatPaceFromMinKm from utils.ts. -/
def formatPaceFromMinKm (paceMinPerKm : ℚ) : String :=
  let minutes : ℤ := jsFloor paceMinPerKm
  let seconds : ℤ := jsRound ((paceMinPerKm - (minutes : ℚ)) * 60)
  toString minutes ++ ":" ++ padStart2 (toString seconds) ++ " min/km"

/-- The inner formatSingle closure of formatPaceRange in utils.ts. -/
def formatPaceSingle (pace : ℚ) : String :=
  let mins : ℤ := jsFloor pace
  let secs : ℤ := jsRound (jsMod pace 1 * 60)
  toString mins ++ ":" ++ padStart2 (toString secs)

/-- formatPaceRange from utils.ts. -/
def formatPaceRange (lo hi : ℚ) : String :=
  formatPaceSingle lo ++ "-" ++ formatPaceSingle hi ++ "/km"

/-! Data model of the predictor (src/lib/strava.ts) -/

/-- The fields of a StravaActivity that the prediction and plan engines read:
distance in meters, moving_time in seconds, start_date as epoch milliseconds,
and the activity type string. -/
structure StravaActivity where
  distance : ℚ
  moving_time : ℚ
  start_date : ℤ
  type : String
deriving DecidableEq

/-- Pace in minutes per kilometer, the (moving_time / 60) / (distance / 1000)
expression the source repeats at each use site. -/
def paceMinPerKm (a : StravaActivity) : ℚ := (a.moving_time / 60) / (a.distance / 1000)

structure Prediction where
  available : Bool
  time : Option ℚ
  pace : Option ℚ
  reason : String
  formattedTime : Option String := none
  formattedPace : Option String := none
deriving DecidableEq

/-- The four-field record literal returned by calculateRacePredictions. -/
structure RacePredictions where
  _5K : Prediction
  _10K : Prediction
  halfMarathon : Prediction
  marathon : Prediction
deriving DecidableEq

def minRuns5K : ℕ := 5
def minRuns10K : ℕ := 10
def minRunsLong : ℕ := 20

/-- The shared reason string assigned to all four predictions when fewer than
minRuns5K qualifying runs exist. -/
def insufficientRunsReason (n : ℕ) : String :=
  "Need at least " ++ toString minRuns5K ++ " runs in the last 24 weeks. Currently have "
    ++ toString n ++ "."

/-- JS truthiness of a number-or-undefined value: undefined and 0 are falsy. -/
def jsTruthyNum (x : Option ℚ) : Bool :=
  match x with
  | none => false
  | some q => decide (q ≠ 0)

/-! analyzeTrainingLoad -/

structure TrainingLoad where
  weeklyKilometers : ℚ
  trainingFrequency : ℚ
  formTrend : ℤ
  trainingStress : ℚ
  recentRunCount : ℕ
deriving DecidableEq

/-- Day of week of an epoch-millisecond timestamp, 0 = Sunday. This models
Date.prototype.getDay in UTC (the epoch fell on a Thursday, offset 4). -/
def jsGetDay (t : ℤ) : ℤ := (t.fdiv 86400000 + 4) % 7

/-- Timestamp of the same time of day on the Sunday opening the week, the
setDate(getDate() - getDay()) computation of analyzeTrainingLoad. The time of
day is retained, exactly as in the source, so two runs in one calendar week
land in the same bucket only when they also share a time of day. -/
def weekStartOf (t : ℤ) : ℤ := t - jsGetDay t * 86400000

/-- analyzeTrainingLoad from strava.ts. -/
def analyzeTrainingLoad (now : ℤ) (activities : List StravaActivity) : TrainingLoad :=
  let fourWeeksAgo := now - 28 * 86400000
  let twelveWeeksAgo := now - 84 * 86400000
  let recentRuns := activities.filter fun a =>
    decide (fourWeeksAgo ≤ a.start_date) && (a.type == "Run")
  let longerTermRuns := activities.filter fun a =>
    decide (twelveWeeksAgo ≤ a.start_date) && (a.type == "Run")
  let weeklyKilometers := ((recentRuns.map fun run => run.distance / 1000).sum) / 4
  let weeksWithRuns := ((recentRuns.map fun run => weekStartOf run.start_date).dedup).length
  let trainingFrequency := (weeksWithRuns : ℚ) / 4
  let sortedByDate :=
    (longerTermRuns.mergeSort fun a b => decide (a.start_date ≤ b.start_date))
  let lastTen := sortedByDate.drop (sortedByDate.length - 10)
  let formTrend : ℤ :=
    if 6 ≤ lastTen.length then
      let firstHalf := lastTen.take (lastTen.length / 2)
      let secondHalf := lastTen.drop (lastTen.length / 2)
      let firstHalfAvgPace := ((firstHalf.map paceMinPerKm).sum) / (firstHalf.length : ℚ)
      let secondHalfAvgPace := ((secondHalf.map paceMinPerKm).sum) / (secondHalf.length : ℚ)
      let improvement := (firstHalfAvgPace - secondHalfAvgPace) / firstHalfAvgPace
      if improvement > 0.05 then 1 else if improvement < -0.05 then -1 else 0
    else 0
  let consistencyBonus := trainingFrequency * 0.2
  let formBonus := (formTrend : ℚ) * 0.1
  let trainingStress := min 1.0 (weeklyKilometers / 30 + consistencyBonus + formBonus)
  { weeklyKilometers, trainingFrequency, formTrend, trainingStress,
    recentRunCount := recentRuns.length }

/-- getSimilarDistanceRange from strava.ts, returning the (min, max) pair. -/
def getSimilarDistanceRange (targetDistance : ℚ) : ℚ × ℚ :=
  if targetDistance ≤ 5 then (targetDistance * 0.8, targetDistance * 1.2)
  else if targetDistance ≤ 10 then (targetDistance * 0.7, targetDistance * 1.3)
  else if targetDistance ≤ 21.1 then (targetDistance * 0.6, targetDistance * 1.4)
  else (targetDistance * 0.5, targetDistance * 1.5)

/-- getDistanceAdjustmentFactor from strava.ts. Math.pow(ratio, 0.06) and
Math.log are passed in as rpow06 and jsLn. -/
def getDistanceAdjustmentFactor (rpow06 jsLn : ℚ → ℚ) (fromDistance toDistance : ℚ) : ℚ :=
  let ratio := toDistance / fromDistance
  let baseAdjustment := rpow06 ratio
  let extrapolationPenalty := if ratio > 4 then 1 + (jsLn ratio - jsLn 4) * 0.02 else 1
  baseAdjustment * extrapolationPenalty

/-- The record built for each valid run inside estimatePaceFromTraining. -/
structure ValidRun where
  distance : ℚ
  pace : ℚ
  time : ℚ
  date : ℤ
  daysAgo : ℤ
deriving DecidableEq

/-- The spread {...run, weight, weightedPace} record of estimatePaceFromTraining. -/
structure WeightedRun extends ValidRun where
  weight : ℚ
  weightedPace : ℚ
deriving DecidableEq

/-- The filtered, mapped, pace-screened and recency-sorted pool of valid runs
built at the top of estimatePaceFromTraining. -/
def validRunsOf (now : ℤ) (activities : List StravaActivity) : List ValidRun :=
  (((activities.filter fun a =>
      decide (a.distance > 1000) && decide (a.moving_time > 0) && decide (a.distance < 50000)).map
    fun a =>
      ValidRun.mk (a.distance / 1000) ((a.moving_time / 60) / (a.distance / 1000)) a.moving_time
        a.start_date (jsFloor ((now - a.start_date : ℤ) / (86400000 : ℚ)))).filter
    fun run => decide (run.pace > 2.5) && decide (run.pace < 12)).mergeSort
    fun a b => decide (a.daysAgo ≤ b.daysAgo)

/-- The age-weighted pool of estimatePaceFromTraining. -/
def weightedRunsOf (now : ℤ) (activities : List StravaActivity) : List WeightedRun :=
  (validRunsOf now activities).map fun run =>
    let ageWeight := max 0.3 (1 - ((run.daysAgo : ℚ) / 90) * 0.7)
    WeightedRun.mk run ageWeight (run.pace * ageWeight)

/-- The ascending pace distribution of the weighted pool. -/
def sortedPacesOf (now : ℤ) (activities : List StravaActivity) : List ℚ :=
  ((weightedRunsOf now activities).map fun r => r.pace).mergeSort fun a b => decide (a ≤ b)

/-- First quartile pace: paces[Math.floor(length * 0.25)]. -/
def q1Of (now : ℤ) (activities : List StravaActivity) : ℚ :=
  let paces := sortedPacesOf now activities
  paces.getD (paces.length / 4) 0

/-- Third quartile pace: paces[Math.floor(length * 0.75)]. -/
def q3Of (now : ℤ) (activities : List StravaActivity) : ℚ :=
  let paces := sortedPacesOf now activities
  paces.getD (paces.length * 3 / 4) 0

/-- The pool surviving the 1.5-IQR outlier band in estimatePaceFromTraining. -/
def iqrFilteredRuns (now : ℤ) (activities : List StravaActivity) : List WeightedRun :=
  let q1 := q1Of now activities
  let q3 := q3Of now activities
  let iqr := q3 - q1
  let lowerBound := q1 - 1.5 * iqr
  let upperBound := q3 + 1.5 * iqr
  (weightedRunsOf now activities).filter fun run =>
    decide (lowerBound ≤ run.pace) && decide (run.pace ≤ upperBound)

/-- estimatePaceFromTraining from strava.ts. The empty match arm models the
TypeError a no-initializer reduce would raise on an empty array; it is proved
unreachable. -/
def estimatePaceFromTraining (rpow06 jsLn : ℚ → ℚ) (now : ℤ)
    (activities : List StravaActivity) (targetDistance : ℚ) : Option ℚ :=
  let validRuns := validRunsOf now activities
  if validRuns.length = 0 then none
  else
    let weightedRuns := weightedRunsOf now activities
    let filteredRuns := iqrFilteredRuns now activities
    let filteredRuns := if filteredRuns.length = 0 then filteredRuns ++ weightedRuns.take 5
      else filteredRuns
    match filteredRuns with
    | [] => none
    | b :: rest =>
      let bestRun := rest.foldl (fun best current =>
        if current.pace < best.pace then current else best) b
      some (bestRun.pace * getDistanceAdjustmentFactor rpow06 jsLn bestRun.distance targetDistance)

/-- calculateDistancePrediction from strava.ts. The two-way match on the
derived pace models the !predictedPace falsiness test (null or 0). -/
def calculateDistancePrediction (rpow06 jsLn : ℚ → ℚ) (now : ℤ)
    (activities : List StravaActivity) (distanceKm : ℚ) : Prediction :=
  let trainingLoad := analyzeTrainingLoad now activities
  let similarDistances := getSimilarDistanceRange distanceKm
  let similarRuns := activities.filter fun a =>
    decide (similarDistances.1 * 1000 ≤ a.distance) &&
    decide (a.distance ≤ similarDistances.2 * 1000) && decide (a.moving_time > 0)
  let predictedPace : Option ℚ :=
    match similarRuns with
    | [] => estimatePaceFromTraining rpow06 jsLn now activities distanceKm
    | b :: rest =>
      let bestRun := rest.foldl (fun best current =>
        if current.moving_time / (current.distance / 1000) <
            best.moving_time / (best.distance / 1000) then current else best) b
      some ((bestRun.moving_time / 60) / (bestRun.distance / 1000))
  if jsTruthyNum predictedPace then
    let pace0 := predictedPace.getD 0
    let trainingAdjustment := 1 + (trainingLoad.trainingStress - 0.5) * 0.05
    let pace1 := pace0 * trainingAdjustment
    let formAdjustment : ℚ :=
      if trainingLoad.formTrend = 1 then 0.98
      else if trainingLoad.formTrend = -1 then 1.02 else 1.0
    let pace2 := pace1 * formAdjustment
    let predictedTime := pace2 * distanceKm
    { available := true, time := some predictedTime, pace := some pace2, reason := "",
      formattedTime := some (formatRaceTime predictedTime),
      formattedPace := some (formatPaceFromMinKm pace2) }
  else
    { available := false, time := none, pace := none,
      reason := "Insufficient data for prediction" }

/-- The qualifying-run filter at the top of calculateRacePredictions: runs of
type Run within the trailing 24 weeks. -/
def recentRunsFilter (now : ℤ) (activities : List StravaActivity) : List StravaActivity :=
  activities.filter fun a =>
    decide (now - 24 * 7 * 86400000 ≤ a.start_date) && (a.type == "Run")

/-- calculateRacePredictions from strava.ts, with the ambient clock injected.
The post-hoc availability assignments mutate the per-distance results exactly
as the source does. -/
def calculateRacePredictions (rpow06 jsLn : ℚ → ℚ) (now : ℤ)
    (activities : List StravaActivity) : RacePredictions :=
  let recentActivities := recentRunsFilter now activities
  if recentActivities.length < minRuns5K then
    let reason := insufficientRunsReason recentActivities.length
    { _5K := { available := false, time := none, pace := none, reason },
      _10K := { available := false, time := none, pace := none, reason },
      halfMarathon := { available := false, time := none, pace := none, reason },
      marathon := { available := false, time := none, pace := none, reason } }
  else
    let p5 := calculateDistancePrediction rpow06 jsLn now recentActivities 5
    let p10 := calculateDistancePrediction rpow06 jsLn now recentActivities 10
    let pHalf := calculateDistancePrediction rpow06 jsLn now recentActivities 21.1
    let pMar := calculateDistancePrediction rpow06 jsLn now recentActivities 42.2
    let p5 := if minRuns5K ≤ recentActivities.length then { p5 with available := true }
      else { p5 with reason := "Need " ++ toString minRuns5K ++ " runs for 5K prediction" }
    let p10 := if minRuns10K ≤ recentActivities.length then { p10 with available := true }
      else { p10 with reason := "Need " ++ toString minRuns10K ++ " runs for 10K prediction" }
    if minRunsLong ≤ recentActivities.length then
      { _5K := p5, _10K := p10,
        halfMarathon := { pHalf with available := true },
        marathon := { pMar with available := true } }
    else
      { _5K := p5, _10K := p10,
        halfMarathon := { pHalf with
          reason := "Need " ++ toString minRunsLong ++ " runs for half marathon prediction" },
        marathon := { pMar with
          reason := "Need " ++ toString minRunsLong ++ " runs for marathon prediction" } }

/-! Pacing strategy generator (strava.ts) -/

inductive PacingKind
  | even
  | negative
  | positive
deriving DecidableEq

structure PacingSplit where
  splitNumber : ℕ
  distance : ℚ
  targetPace : ℚ
  targetTime : ℚ
  cumulativeDistance : ℚ
  cumulativeTime : ℚ
  paceFormatted : String
  splitTimeFormatted : String
  cumulativeTimeFormatted : String
  strategy : String
deriving DecidableEq

structure PacingStrategy where
  raceDistance : ℚ
  targetTime : ℚ
  averagePace : ℚ
  strategy : PacingKind
  splits : List PacingSplit
  recommendations : List String
deriving DecidableEq

/-- Distance of split i in generatePacingStrategy:
i <= Math.floor(raceDistanceKm) ? 1 : raceDistanceKm % 1. -/
def pacingSplitDistance (raceDistanceKm : ℚ) (i : ℕ) : ℚ :=
  if (i : ℚ) ≤ (jsFloor raceDistanceKm : ℚ) then 1 else jsMod raceDistanceKm 1

/-- Target pace and strategy note of split i in generatePacingStrategy:
strategy modulation followed by the late-race fatigue factor. -/
def pacingSplitPaceNote (raceDistanceKm predictedPace : ℚ) (strategy : PacingKind)
    (i : ℕ) : ℚ × String :=
  let ceilD : ℚ := (jsCeil raceDistanceKm : ℚ)
  let base : ℚ × String :=
    match strategy with
    | .even => (predictedPace, "Even pace")
    | .negative =>
      let progressRatio := (i : ℚ) / ceilD
      if progressRatio ≤ 0.5 then (predictedPace * 1.02, "Start conservative")
      else (predictedPace * 0.98, "Push harder")
    | .positive =>
      let progressRatio := (i : ℚ) / ceilD
      if progressRatio ≤ 0.5 then (predictedPace * 0.98, "Fast start")
      else (predictedPace * 1.02, "Maintain effort")
  if 21.1 ≤ raceDistanceKm then
    let fatigueRatio := (i : ℚ) / ceilD
    if fatigueRatio > 0.75 then
      let fatigueFactor := 1 + (fatigueRatio - 0.75) * 0.04
      (base.1 * fatigueFactor, if strategy = .even then "Manage fatigue" else base.2)
    else base
  else base

/-- The recommendations list built at the end of generatePacingStrategy. -/
def pacingRecommendations (raceDistanceKm : ℚ) (strategy : PacingKind) : List String :=
  (match strategy with
   | .even =>
      ["🎯 Even pacing is the most efficient strategy for most runners",
       "⏱️ Focus on maintaining consistent effort throughout"]
   | .negative =>
      ["🚀 Negative split strategy: Start controlled, finish strong",
       "💪 Save energy early to push harder in the second half"]
   | .positive =>
      ["⚠️ Positive split (not recommended): High injury/burnout risk",
       "🏃 Only use if you know your fitness can handle it"]) ++
  (if 21.1 ≤ raceDistanceKm then
      ["🥤 Plan hydration every 5km for optimal performance",
       "🍌 Consider fuel (gel/chews) around 45-60 minutes in"]
   else []) ++
  (if 10 ≤ raceDistanceKm then
      ["🧠 Mental checkpoint: Focus on form and breathing at halfway point"]
   else []) ++
  ["📱 Use your watch/app to track pace but focus on effort feel",
   "💨 Start behind the pack to avoid going out too fast"]

/-- One iteration of the split-building loop of generatePacingStrategy,
threading the splits list and the cumulative distance and time. -/
def pacingStep (raceDistanceKm predictedPace : ℚ) (strategy : PacingKind)
    (acc : List PacingSplit × ℚ × ℚ) (idx : ℕ) : List PacingSplit × ℚ × ℚ :=
  let i := idx + 1
  let splitDistance := pacingSplitDistance raceDistanceKm i
  let pn := pacingSplitPaceNote raceDistanceKm predictedPace strategy i
  let splitTime := pn.1 * splitDistance
  let cumulativeDistance := acc.2.1 + splitDistance
  let cumulativeTime := acc.2.2 + splitTime
  (acc.1 ++ [{ splitNumber := i, distance := splitDistance, targetPace := pn.1,
               targetTime := splitTime, cumulativeDistance, cumulativeTime,
               paceFormatted := formatPaceFromMinKm pn.1,
               splitTimeFormatted := formatRaceTime splitTime,
               cumulativeTimeFormatted := formatRaceTime cumulativeTime,
               strategy := pn.2 }],
   cumulativeDistance, cumulativeTime)

/-- generatePacingStrategy from strava.ts: one split per whole kilometer plus
a fractional trailer, built by the loop for i in 1..Math.ceil(raceDistanceKm). -/
def generatePacingStrategy (raceDistanceKm predictedPace : ℚ)
    (strategy : PacingKind) : PacingStrategy :=
  let targetTime := predictedPace * raceDistanceKm
  let n : ℕ := (jsCeil raceDistanceKm).toNat
  let build := (List.range n).foldl (pacingStep raceDistanceKm predictedPace strategy) ([], 0, 0)
  { raceDistance := raceDistanceKm, targetTime, averagePace := predictedPace, strategy,
    splits := build.1, recommendations := pacingRecommendations raceDistanceKm strategy }

/-! Data model of the plan generator (src/lib/training-plan.ts) -/

/-- The four-value distance union of RaceGoal.distance. -/
inductive RaceDistance
  | fiveK
  | tenK
  | halfMarathon
  | marathon
deriving DecidableEq

/-- The RACE_DISTANCES mapping to kilometers. -/
def RACE_DISTANCES : RaceDistance → ℚ
  | .fiveK => 5
  | .tenK => 10
  | .halfMarathon => 21.1
  | .marathon => 42.2

structure RaceGoal where
  date : ℤ
  startDate : Option ℤ := none
  distance : RaceDistance
  targetTime : Option String := none
  runsPerWeek : ℕ
  trainingDays : Option (List ℕ) := none
deriving DecidableEq

structure PaceBand where
  min : ℚ
  max : ℚ
deriving DecidableEq

structure PaceZones where
  easy : PaceBand
  tempo : PaceBand
  threshold : PaceBand
  interval : PaceBand
  long : PaceBand
deriving DecidableEq

inductive WeeklyTrend
  | increasing
  | stable
  | decreasing
deriving DecidableEq

structure DetailedTrainingMetrics where
  activities : List StravaActivity
  recentRunCount : ℕ
  weeklyKilometers : ℚ
  avgPace : ℚ
  longestRun : ℚ
  paceZones : PaceZones
  weeklyTrend : WeeklyTrend
  consistencyScore : ℚ
  avgLongRun : ℚ
  recentPaceImprovement : ℚ
deriving DecidableEq

inductive WorkoutType
  | EasyRun
  | LongRun
  | TempoRun
  | Intervals
  | RecoveryRun
  | Rest
  | CrossTraining
  | RaceDay
deriving DecidableEq

inductive Intensity
  | Low
  | Medium
  | High
deriving DecidableEq

structure Workout where
  day : String
  type : WorkoutType
  distance : Option ℚ := none
  description : String
  intensity : Intensity
deriving DecidableEq

structure WeeklyPlan where
  weekNumber : ℕ
  weekStartDate : ℤ
  focus : String
  totalKilometers : ℚ
  workouts : List Workout
  notes : String
deriving DecidableEq

structure TrainingPlan where
  raceGoal : RaceGoal
  weeksUntilRace : ℤ
  currentFitness : String
  estimatedRaceTime : String
  plan : List WeeklyPlan
  recommendations : List String
  generatedDate : ℤ
deriving DecidableEq

/-- The recent average pace computed at the top of calculateDetailedMetrics:
mean pace of runs in the trailing 4 weeks, or the avgPace argument if none. -/
def recentAvgPaceOf (now : ℤ) (activities : List StravaActivity) (avgPace : ℚ) : ℚ :=
  let fourWeeksAgo := now - 28 * 86400000
  let recentRuns := activities.filter fun a => decide (fourWeeksAgo ≤ a.start_date)
  if recentRuns.length > 0 then ((recentRuns.map paceMinPerKm).sum) / (recentRuns.length : ℚ)
  else avgPace

/-- The pace-zone record literal of calculateDetailedMetrics, each bound a
fixed multiplier of the recent average pace. -/
def paceZonesOf (recentAvgPace : ℚ) : PaceZones :=
  { easy := ⟨recentAvgPace * 1.15, recentAvgPace * 1.3⟩,
    tempo := ⟨recentAvgPace * 0.9, recentAvgPace * 0.95⟩,
    threshold := ⟨recentAvgPace * 0.85, recentAvgPace * 0.9⟩,
    interval := ⟨recentAvgPace * 0.75, recentAvgPace * 0.85⟩,
    long := ⟨recentAvgPace * 1.1, recentAvgPace * 1.2⟩ }

/-- calculateDetailedMetrics from training-plan.ts. The week4km slice models
the JS slice(-k) quirk: when k = 0 the slice is the whole array. -/
def calculateDetailedMetrics (now : ℤ) (activities : List StravaActivity)
    (weeklyKilometers avgPace longestRun : ℚ) (recentRunCount : ℕ) : DetailedTrainingMetrics :=
  let fourWeeksAgo := now - 28 * 86400000
  let eightWeeksAgo := now - 56 * 86400000
  let recentRuns := activities.filter fun a => decide (fourWeeksAgo ≤ a.start_date)
  let olderRuns := activities.filter fun a =>
    decide (eightWeeksAgo ≤ a.start_date) && decide (a.start_date < fourWeeksAgo)
  let recentAvgPace := recentAvgPaceOf now activities avgPace
  let olderAvgPace :=
    if olderRuns.length > 0 then ((olderRuns.map paceMinPerKm).sum) / (olderRuns.length : ℚ)
    else recentAvgPace
  let paceImprovement :=
    if olderAvgPace > 0 then (olderAvgPace - recentAvgPace) / olderAvgPace * 100 else 0
  let quarter := recentRuns.length / 4
  let week1km : ℚ := ((recentRuns.take quarter).map fun r => r.distance / 1000).sum
  let week4kmList := if quarter = 0 then recentRuns
    else recentRuns.drop (recentRuns.length - quarter)
  let week4km : ℚ := (week4kmList.map fun r => r.distance / 1000).sum
  let weeklyTrend : WeeklyTrend :=
    if week4km > week1km * 1.1 then .increasing
    else if week4km < week1km * 0.9 then .decreasing
    else .stable
  let consistencyScore := min 100 ((recentRunCount : ℚ) / 16 * 100)
  let sortedByDistance := recentRuns.mergeSort fun a b => decide (b.distance ≤ a.distance)
  let longRuns :=
    sortedByDistance.take (max 1 (jsCeil ((sortedByDistance.length : ℚ) * 0.25)).toNat)
  let avgLongRun :=
    if longRuns.length > 0 then
      ((longRuns.map fun r => r.distance / 1000).sum) / (longRuns.length : ℚ)
    else longestRun
  { activities, recentRunCount, weeklyKilometers, avgPace := recentAvgPace, longestRun,
    paceZones := paceZonesOf recentAvgPace, weeklyTrend, consistencyScore, avgLongRun,
    recentPaceImprovement := paceImprovement }

/-- getWeeksUntilRace from training-plan.ts, with the ambient clock injected
as the default start. -/
def getWeeksUntilRace (now : ℤ) (raceDate : ℤ) (startDate : Option ℤ) : ℤ :=
  let start := startDate.getD now
  let diffTime := raceDate - start
  let diffDays := jsCeil ((diffTime : ℚ) / 86400000)
  jsCeil ((diffDays : ℚ) / 7)

/-- assessFitnessLevel from training-plan.ts. -/
def assessFitnessLevel (metrics : DetailedTrainingMetrics)
    (raceDistance : RaceDistance) : String :=
  let targetDistance := RACE_DISTANCES raceDistance
  let weeklyToRaceRatio := metrics.weeklyKilometers / targetDistance
  let longRunRatio := metrics.avgLongRun / targetDistance
  let consistency := metrics.consistencyScore / 100
  let score : ℚ :=
    (if weeklyToRaceRatio ≥ 2.5 then (40 : ℚ)
     else if weeklyToRaceRatio ≥ 1.8 then 30
     else if weeklyToRaceRatio ≥ 1.2 then 20 else 10) +
    (if longRunRatio ≥ 0.7 then (25 : ℚ)
     else if longRunRatio ≥ 0.5 then 18
     else if longRunRatio ≥ 0.3 then 10 else 5) +
    consistency * 20 +
    (if metrics.recentRunCount ≥ 16 then (15 : ℚ)
     else if metrics.recentRunCount ≥ 12 then 10
     else if metrics.recentRunCount ≥ 8 then 5 else 0) +
    max (-5) (min 10 metrics.recentPaceImprovement)
  if score ≥ 75 then "Advanced" else if score ≥ 50 then "Intermediate" else "Beginner"

/-- The Monday-first day-name array of generateWorkout. -/
def dayNames : List String :=
  ["Monday", "Tuesday", "Wednesday", "Thursday", "Friday", "Saturday", "Sunday"]

/-- The built-in run-day mapping by weekly frequency in generateWorkout
(indices into the Monday-first array; the final else covers every frequency
outside 2..6, matching the source). -/
def defaultRunDays (runsPerWeek : ℕ) : List ℕ :=
  if runsPerWeek = 2 then [2, 6]
  else if runsPerWeek = 3 then [1, 4, 6]
  else if runsPerWeek = 4 then [1, 2, 5, 6]
  else if runsPerWeek = 5 then [1, 2, 3, 5, 6]
  else if runsPerWeek = 6 then [1, 2, 3, 4, 5, 6]
  else [0, 1, 2, 3, 4, 5, 6]

/-- The run-day list of generateWorkout: a nonempty custom list wins,
otherwise the frequency mapping. -/
def runDaysFor (runsPerWeek : ℕ) (customTrainingDays : Option (List ℕ)) : List ℕ :=
  match customTrainingDays with
  | some l => if l.length > 0 then l else defaultRunDays runsPerWeek
  | none => defaultRunDays runsPerWeek

/-- The quality-day test of generateWorkout: position-based indices for custom
schedules, fixed weekdays otherwise. -/
def isQualityDayFor (runsPerWeek dayOfWeek : ℕ) (customTrainingDays : Option (List ℕ))
    (runDays : List ℕ) : Bool :=
  let defaultRule :=
    (runsPerWeek == 2 && dayOfWeek == 2) ||
    (runsPerWeek == 3 && dayOfWeek == 4) ||
    (decide (4 ≤ runsPerWeek) && (dayOfWeek == 2 || dayOfWeek == 5))
  match customTrainingDays with
  | some l =>
    if l.length > 0 then
      let qualityIndices : List ℕ :=
        if runsPerWeek = 2 then [0]
        else if runsPerWeek = 3 then [1]
        else if 4 ≤ runsPerWeek then [runDays.length / 3, runDays.length * 2 / 3]
        else []
      (qualityIndices.map fun i => runDays.getD i 0).contains dayOfWeek
    else defaultRule
  | none => defaultRule

/-- The easy-run distance of generateWorkout, also used verbatim for quality
days: what remains after the 35-percent long run, split over the other run
days and rounded to one decimal. -/
def otherRunDistanceOf (weekKilometers : ℚ) (runDays : List ℕ) : ℚ :=
  let longRunKm := weekKilometers * 0.35
  let remainingKm := weekKilometers - longRunKm
  let otherRunDays := runDays.length - 1
  if otherRunDays > 0 then round1 (remainingKm / (otherRunDays : ℚ)) else 0

inductive Phase
  | base
  | build
  | peak
  | taper
deriving DecidableEq

/-- generateWorkout from training-plan.ts. The long-run day is the last entry
of the run-day list; the getLastD default 7 models the undefined index lookup
on an empty list, which is unreachable because every run-day list is nonempty. -/
def generateWorkout (phase : Phase) (dayOfWeek : ℕ) (weekKilometers : ℚ)
    (metrics : DetailedTrainingMetrics) (raceDistance : RaceDistance)
    (runsPerWeek : ℕ) (customTrainingDays : Option (List ℕ)) : Workout :=
  let paceZones := metrics.paceZones
  let runDays := runDaysFor runsPerWeek customTrainingDays
  if ¬ (runDays.contains dayOfWeek) then
    { day := dayNames.getD dayOfWeek (""), type := .Rest, distance := none,
      description := "Complete rest or light stretching/mobility work",
      intensity := .Low }
  else
    let longRunDay := runDays.getLastD 7
    if dayOfWeek = longRunDay then
      let longRunDistance := round1 (weekKilometers * 0.35)
      let paceGuidance := formatPaceRange paceZones.long.min paceZones.long.max
      { day := dayNames.getD dayOfWeek (""), type := .LongRun,
        distance := some longRunDistance,
        description := jsNumToString longRunDistance ++
          "km at easy, conversational pace (" ++ paceGuidance ++
          "). Focus on time on feet and building endurance.",
        intensity := if phase = .peak then .Medium else .Low }
    else if isQualityDayFor runsPerWeek dayOfWeek customTrainingDays runDays then
      let qualityDistance := otherRunDistanceOf weekKilometers runDays
      match phase with
      | .base =>
        let paceGuidance := formatPaceRange paceZones.easy.min paceZones.easy.max
        { day := dayNames.getD dayOfWeek (""), type := .EasyRun,
          distance := some qualityDistance,
          description := jsNumToString qualityDistance ++
            "km easy run at comfortable pace (" ++ paceGuidance ++ ")",
          intensity := .Low }
      | .build =>
        let tempoKm := round1 (qualityDistance * 0.6)
        let tempoPace := formatPaceRange paceZones.tempo.min paceZones.tempo.max
        { day := dayNames.getD dayOfWeek (""), type := .TempoRun,
          distance := some qualityDistance,
          description := jsNumToString qualityDistance ++ "km total: 2km warmup, " ++
            jsNumToString tempoKm ++ "km at tempo pace (" ++ tempoPace ++
            ", comfortably hard), 2km cooldown",
          intensity := .High }
      | .peak =>
        let intervalPace := formatPaceRange paceZones.interval.min paceZones.interval.max
        let intervalDistance := if RACE_DISTANCES raceDistance ≤ 10 then "800m" else "1km"
        { day := dayNames.getD dayOfWeek (""), type := .Intervals,
          distance := some qualityDistance,
          description := jsNumToString qualityDistance ++ "km total: 2km warmup, 6-8 × " ++
            intervalDistance ++ " at " ++ intervalPace ++
            " with equal recovery, 2km cooldown",
          intensity := .High }
      | .taper =>
        let paceGuidance := formatPaceRange paceZones.easy.min paceZones.easy.max
        { day := dayNames.getD dayOfWeek (""), type := .EasyRun,
          distance := some qualityDistance,
          description := jsNumToString qualityDistance ++ "km easy run (" ++ paceGuidance ++
            "). Keep it relaxed and save energy for race day.",
          intensity := .Low }
    else
      let easyDistance := otherRunDistanceOf weekKilometers runDays
      let paceGuidance := formatPaceRange paceZones.easy.min paceZones.easy.max
      { day := dayNames.getD dayOfWeek (""), type := .EasyRun,
        distance := some easyDistance,
        description := jsNumToString easyDistance ++
          "km at easy, comfortable pace (" ++ paceGuidance ++ ")",
        intensity := .Low }

/-- The weeksRemaining quantity of generateWeeklyPlan. -/
def weeksRemainingOf (weekNumber weeksUntilRace : ℕ) : ℤ :=
  (weeksUntilRace : ℤ) - (weekNumber : ℤ) + 1

/-- The phase classification chain of generateWeeklyPlan. -/
def phaseOf (weekNumber weeksUntilRace : ℕ) : Phase :=
  let weeksRemaining := weeksRemainingOf weekNumber weeksUntilRace
  if weeksRemaining ≤ 2 then .taper
  else if weeksRemaining ≤ jsCeil ((weeksUntilRace : ℚ) * 0.3) then .peak
  else if weeksRemaining ≤ jsCeil ((weeksUntilRace : ℚ) * 0.6) then .build
  else .base

/-- The phase-target volume formula of generateWeeklyPlan (the labeling-side
computation that the simplified actual-assignment rule overrides). -/
def targetWeeklyKilometersOf (weekNumber weeksUntilRace : ℕ)
    (baseWeeklyKilometers : ℚ) : ℚ :=
  let weeksRemaining := weeksRemainingOf weekNumber weeksUntilRace
  match phaseOf weekNumber weeksUntilRace with
  | .taper => baseWeeklyKilometers * (if weeksRemaining = 2 then 0.7 else 0.5)
  | .peak => baseWeeklyKilometers * 1.2
  | .build =>
    let buildProgress :=
      ((weeksUntilRace : ℚ) * 0.6 - (weeksRemaining : ℚ)) / ((weeksUntilRace : ℚ) * 0.3)
    baseWeeklyKilometers * (1.0 + 0.2 * buildProgress)
  | .base =>
    let baseProgress := ((weekNumber : ℚ) - 1) / (jsCeil ((weeksUntilRace : ℚ) * 0.4) : ℚ)
    baseWeeklyKilometers * (0.8 + 0.2 * baseProgress)

/-- The focus label of each phase in generateWeeklyPlan. -/
def focusOf : Phase → String
  | .taper => "Taper & Recovery"
  | .peak => "Race-Specific Training"
  | .build => "Building Endurance & Speed"
  | .base => "Building Base Fitness"

/-- The notes text of each phase in generateWeeklyPlan. -/
def notesOf (phase : Phase) (weeksRemaining : ℤ) : String :=
  match phase with
  | .taper =>
    if weeksRemaining = 1 then
      "Final week! Reduce volume significantly, focus on rest and race prep."
    else "Begin taper. Reduce volume but maintain some intensity to stay sharp."
  | .peak => "Peak training volume. Include race-pace efforts and longer tempo runs."
  | .build => "Increase volume gradually. Add tempo runs and hill work."
  | .base => "Focus on easy kilometers and building aerobic base. No hard efforts yet."

/-- The per-distance hard weekly caps of generateWeeklyPlan. The || 80 default
in the source is unreachable: all four union values have an entry. -/
def maxWeeklyKm : RaceDistance → ℚ
  | .fiveK => 45
  | .tenK => 65
  | .halfMarathon => 85
  | .marathon => 110

/-- The recovery-week cadence test of generateWeeklyPlan (before the truthy
previous-total conjunct). -/
def isRecoveryWeekOf (weekNumber weeksUntilRace : ℕ) : Bool :=
  weekNumber % 4 == 0 && decide (weeksRemainingOf weekNumber weeksUntilRace > 3)

/-- The simplified actual-assignment rule of generateWeeklyPlan, before the
final one-decimal rounding: recovery takes 85 percent of the previous total,
taper takes the phase target, a truthy previous total takes plus ten percent
capped, and week one takes 80 percent of base. -/
def assignedWeeklyKilometersPre (weekNumber weeksUntilRace : ℕ)
    (baseWeeklyKilometers : ℚ) (raceDistance : RaceDistance)
    (previousWeekKilometers : Option ℚ) : ℚ :=
  if isRecoveryWeekOf weekNumber weeksUntilRace && jsTruthyNum previousWeekKilometers then
    previousWeekKilometers.getD 0 * 0.85
  else if phaseOf weekNumber weeksUntilRace = .taper then
    targetWeeklyKilometersOf weekNumber weeksUntilRace baseWeeklyKilometers
  else if jsTruthyNum previousWeekKilometers then
    min (previousWeekKilometers.getD 0 * 1.10) (maxWeeklyKm raceDistance)
  else
    baseWeeklyKilometers * 0.80

/-- The assigned weekly volume after the one-decimal rounding. -/
def assignedWeeklyKilometers (weekNumber weeksUntilRace : ℕ)
    (baseWeeklyKilometers : ℚ) (raceDistance : RaceDistance)
    (previousWeekKilometers : Option ℚ) : ℚ :=
  round1 (assignedWeeklyKilometersPre weekNumber weeksUntilRace baseWeeklyKilometers
    raceDistance previousWeekKilometers)

/-- The Race Day workout literal written over index 6 in the final week. -/
def raceDayWorkout (raceDistance : RaceDistance) : Workout :=
  { day := "Sunday", type := .RaceDay, distance := some (RACE_DISTANCES raceDistance),
    description := "🏁 RACE DAY! Trust your training, execute your strategy, and have fun!",
    intensity := .High }

/-- The 7-entry workout list of generateWeeklyPlan: one generateWorkout per
day index, with index 6 overwritten by the Race Day workout in the final week. -/
def weekWorkouts (weekNumber weeksUntilRace : ℕ) (baseWeeklyKilometers : ℚ)
    (metrics : DetailedTrainingMetrics) (raceDistance : RaceDistance) (runsPerWeek : ℕ)
    (customTrainingDays : Option (List ℕ)) (previousWeekKilometers : Option ℚ) :
    List Workout :=
  let weeklyKilometers := assignedWeeklyKilometers weekNumber weeksUntilRace
    baseWeeklyKilometers raceDistance previousWeekKilometers
  let workouts := (List.range 7).map fun day =>
    generateWorkout (phaseOf weekNumber weeksUntilRace) day weeklyKilometers metrics
      raceDistance runsPerWeek customTrainingDays
  if weeksRemainingOf weekNumber weeksUntilRace = 1 then
    workouts.set 6 (raceDayWorkout raceDistance)
  else workouts

/-- generateWeeklyPlan from training-plan.ts. The reported totalKilometers is
the one-decimal rounding of the actual per-day sum (rest days contribute 0
through the distance || 0 fallback). -/
def generateWeeklyPlan (weekNumber weeksUntilRace : ℕ) (baseWeeklyKilometers : ℚ)
    (metrics : DetailedTrainingMetrics) (raceDistance : RaceDistance) (runsPerWeek : ℕ)
    (customTrainingDays : Option (List ℕ)) (previousWeekKilometers : Option ℚ)
    (planStartDate : Option ℤ) (now : ℤ) : WeeklyPlan :=
  let weeksRemaining := weeksRemainingOf weekNumber weeksUntilRace
  let startDate := planStartDate.getD now
  let weekStartDate := startDate + ((weekNumber : ℤ) - 1) * 7 * 86400000
  let phase := phaseOf weekNumber weeksUntilRace
  let recovery :=
    isRecoveryWeekOf weekNumber weeksUntilRace && jsTruthyNum previousWeekKilometers
  let focus := if recovery then "Recovery Week" else focusOf phase
  let notes :=
    if recovery then "⚡ Recovery week: Reduced volume for recovery. All easy pace."
    else notesOf phase weeksRemaining
  let workouts := weekWorkouts weekNumber weeksUntilRace baseWeeklyKilometers metrics
    raceDistance runsPerWeek customTrainingDays previousWeekKilometers
  { weekNumber, weekStartDate, focus,
    totalKilometers := round1 ((workouts.map fun w => w.distance.getD 0).sum),
    workouts, notes }

/-- The reasonable per-distance starting-volume caps of generateTrainingPlan. -/
def reasonableMax : RaceDistance → ℚ
  | .fiveK => 35
  | .tenK => 50
  | .halfMarathon => 70
  | .marathon => 90

/-- The base weekly volume of generateTrainingPlan: current volume, floored to
12 below 10, capped at the reasonable maximum. -/
def baseWeeklyKilometersOf (metrics : DetailedTrainingMetrics)
    (raceDistance : RaceDistance) : ℚ :=
  let b0 := metrics.weeklyKilometers
  let b1 := if b0 < 10 then 12 else b0
  if b1 > reasonableMax raceDistance then reasonableMax raceDistance else b1

/-- JS truthiness of a string-or-undefined value: undefined and the empty
string are falsy. -/
def jsTruthyStr (s : Option String) : Bool :=
  match s with
  | none => false
  | some t => decide (t ≠ "")

/-- The predictions.formattedTime || raceGoal.targetTime || fallback chain. -/
def estimatedRaceTimeOf (predFormattedTime targetTime : Option String) : String :=
  if jsTruthyStr predFormattedTime then predFormattedTime.getD ("")
  else if jsTruthyStr targetTime then targetTime.getD ("")
  else "Not available"

/-- The first k iterations of the week loop of generateTrainingPlan, rendered
as structural recursion on the iteration count: iteration week = k + 1 appends
one weekly plan whose previous total, plan[week - 2].totalKilometers in the
source, is the last accumulated total. -/
def planWeeksAux (weeksToGenerate : ℕ) (baseWeeklyKilometers : ℚ)
    (metrics : DetailedTrainingMetrics) (raceDistance : RaceDistance) (runsPerWeek : ℕ)
    (customTrainingDays : Option (List ℕ)) (planStartDate : Option ℤ) (now : ℤ) :
    ℕ → List WeeklyPlan
  | 0 => []
  | k + 1 =>
    let plan := planWeeksAux weeksToGenerate baseWeeklyKilometers metrics raceDistance
      runsPerWeek customTrainingDays planStartDate now k
    let week := k + 1
    let previousWeekKm :=
      if week > 1 then (plan.getLast?).map (fun w => w.totalKilometers) else none
    plan ++ [generateWeeklyPlan week weeksToGenerate baseWeeklyKilometers metrics
      raceDistance runsPerWeek customTrainingDays previousWeekKm planStartDate now]

/-- The full week loop of generateTrainingPlan: weeksToGenerate iterations. -/
def planWeeks (weeksToGenerate : ℕ) (baseWeeklyKilometers : ℚ)
    (metrics : DetailedTrainingMetrics) (raceDistance : RaceDistance) (runsPerWeek : ℕ)
    (customTrainingDays : Option (List ℕ)) (planStartDate : Option ℤ) (now : ℤ) :
    List WeeklyPlan :=
  planWeeksAux weeksToGenerate baseWeeklyKilometers metrics raceDistance runsPerWeek
    customTrainingDays planStartDate now weeksToGenerate

/-- The conditional recommendation list of generateTrainingPlan. -/
def recommendationsOf (weeksUntilRace : ℤ) (metrics : DetailedTrainingMetrics)
    (raceDistanceKm baseWeeklyKilometers : ℚ) (fitnessLevel : String) : List String :=
  (if weeksUntilRace < 8 then
    ["⚠️ Less than 8 weeks until race. Focus on consistency and avoid injury."]
   else []) ++
  (if metrics.longestRun < raceDistanceKm * 0.6 then
    ["🎯 Build up your long run distance gradually. Current longest: " ++
      toFixed1 metrics.longestRun ++ "km. Target: " ++ toFixed1 (raceDistanceKm * 0.75) ++
      "km+"]
   else []) ++
  (if metrics.weeklyKilometers < baseWeeklyKilometers * 0.8 then
    ["📈 Gradually increase weekly volume. Current: " ++ toFixed1 metrics.weeklyKilometers ++
      "km/week. Target: " ++ toFixed1 baseWeeklyKilometers ++ "km/week"]
   else []) ++
  (if metrics.recentRunCount < 12 then
    ["🏃 Try to run at least 3-4 times per week for optimal race preparation."]
   else []) ++
  (if fitnessLevel = "Advanced" then
    ["💪 Your current fitness is excellent! Focus on race-specific workouts."]
   else if fitnessLevel = "Beginner" then
    ["🌱 Build your base gradually. Avoid increasing volume by more than 10% per week."]
   else []) ++
  (if metrics.recentPaceImprovement > 5 then
    ["🚀 Your pace is improving rapidly (+" ++ toFixed1 metrics.recentPaceImprovement ++
      "%)! Keep up the momentum but watch for overtraining."]
   else if metrics.recentPaceImprovement < -5 then
    ["⚠️ Your pace has slowed recently. Ensure adequate recovery and check for fatigue or overtraining."]
   else []) ++
  (if metrics.consistencyScore < 50 then
    ["📅 Work on consistency. Current score: " ++ toString (jsRound metrics.consistencyScore) ++
      "%. Regular training yields better results."]
   else if metrics.consistencyScore ≥ 80 then
    ["⭐ Excellent training consistency (" ++ toString (jsRound metrics.consistencyScore) ++
      "%)! This discipline will pay off on race day."]
   else []) ++
  ["💧 Stay hydrated and fuel properly on long runs (60+ minutes).",
   "😴 Prioritize sleep and recovery - progress happens during rest."]

/-- generateTrainingPlan from training-plan.ts. The predictions argument is
its formattedTime field; generatedDate keeps the numeric timestamp. -/
def generateTrainingPlan (now : ℤ) (raceGoal : RaceGoal)
    (trainingMetrics : DetailedTrainingMetrics)
    (predictionsFormattedTime : Option String) : TrainingPlan :=
  let weeksUntilRace := getWeeksUntilRace now raceGoal.date raceGoal.startDate
  let fitnessLevel := assessFitnessLevel trainingMetrics raceGoal.distance
  let raceDistanceKm := RACE_DISTANCES raceGoal.distance
  let baseWeeklyKilometers := baseWeeklyKilometersOf trainingMetrics raceGoal.distance
  let weeksToGenerate := weeksUntilRace.toNat
  let plan := planWeeks weeksToGenerate baseWeeklyKilometers trainingMetrics
    raceGoal.distance raceGoal.runsPerWeek raceGoal.trainingDays raceGoal.startDate now
  { raceGoal, weeksUntilRace, currentFitness := fitnessLevel,
    estimatedRaceTime := estimatedRaceTimeOf predictionsFormattedTime raceGoal.targetTime,
    plan,
    recommendations := recommendationsOf weeksUntilRace trainingMetrics raceDistanceKm
      baseWeeklyKilometers fitnessLevel,
    generatedDate := now }

/-! Shared facts about the numeric primitives -/

theorem round1_le (q : ℚ) : round1 q ≤ q + 1 / 20 := by
  unfold round1 jsRound
  have h := Int.floor_le (q * 10 + 1 / 2)
  rw [div_le_iff₀ (by norm_num : (0 : ℚ) < 10)]
  linarith

theorem round1_nonneg {q : ℚ} (hq : 0 ≤ q) : 0 ≤ round1 q := by
  unfold round1 jsRound
  have h : (0 : ℤ) ≤ ⌊q * 10 + 1 / 2⌋ := Int.le_floor.mpr (by push_cast; linarith)
  have h2 : (0 : ℚ) ≤ (⌊q * 10 + 1 / 2⌋ : ℚ) := by exact_mod_cast h
  linarith [div_nonneg h2 (by norm_num : (0 : ℚ) ≤ 10)]

/-! Concrete sample inputs used by witnesses and counterexamples -/

/-- A fixed metrics record (12 km/week current volume, 6 min/km pace zones). -/
def metrics0 : DetailedTrainingMetrics :=
  { activities := [], recentRunCount := 0, weeklyKilometers := 12, avgPace := 6,
    longestRun := 10, paceZones := paceZonesOf 6, weeklyTrend := .stable,
    consistencyScore := 0, avgLongRun := 5, recentPaceImprovement := 0 }

/-- A 10K race goal 16 weeks after the plan start, 3 runs per week. -/
def goal16 : RaceGoal :=
  { date := 16 * 7 * 86400000, startDate := some 0, distance := .tenK, runsPerWeek := 3 }

/-- The plan generated for goal16 from metrics0. -/
def plan16 : TrainingPlan := generateTrainingPlan 0 goal16 metrics0 none

def defaultWeeklyPlan : WeeklyPlan :=
  { weekNumber := 0, weekStartDate := 0, focus := "none", totalKilometers := 0,
    workouts := [], notes := "none" }

def defaultWorkout : Workout :=
  { day := "none", type := .Rest, distance := none, description := "none",
    intensity := .Low }

/-- A 500 m activity: a qualifying Run, but outside every similarity window
and below the 1 km validity floor of the extrapolation pool. -/
def shortRun : StravaActivity :=
  { distance := 500, moving_time := 100, start_date := 0, type := "Run" }

/-- Five qualifying runs of 500 m each: they pass the 5-run overall gate while
no pace can be derived for any distance. -/
def c1Activities : List StravaActivity := List.replicate 5 shortRun

/-! C1. The source marks a distance available whenever its run-count threshold
is met, even when calculateDistancePrediction failed and returned a null time
and pace with a nonempty reason. -/

/-- C1: on five 500 m runs, the per-distance computation fails (null pace,
reason Insufficient data for prediction), yet calculateRacePredictions sets
available := true on the 5K prediction because the 5-run count gate is met.
The spec requires a distance with no derivable pace to stay unavailable with
empty-reason-once-available semantics; the code violates it on this input,
for every value of the transcendental helpers. -/
theorem c1_available_with_null_pace_code_bug (rpow06 jsLn : ℚ → ℚ) :
    (calculateRacePredictions rpow06 jsLn 0 c1Activities)._5K.available = true ∧
    (calculateRacePredictions rpow06 jsLn 0 c1Activities)._5K.time = none ∧
    (calculateRacePredictions rpow06 jsLn 0 c1Activities)._5K.pace = none ∧
    (calculateRacePredictions rpow06 jsLn 0 c1Activities)._5K.reason
      = "Insufficient data for prediction" := by
  refine ⟨?_, ?_, ?_, ?_⟩ <;> with_unfolding_all rfl

/-! C2. The Race Day workout -/

theorem generateWorkout_type_ne_raceDay (phase : Phase) (d : ℕ) (W : ℚ)
    (m : DetailedTrainingMetrics) (rd : RaceDistance) (rpw : ℕ)
    (c : Option (List ℕ)) :
    (generateWorkout phase d W m rd rpw c).type ≠ .RaceDay := by
  by_cases h1 : d ∈ runDaysFor rpw c
  · by_cases h2 : d = (runDaysFor rpw c).getLast?.getD 7
    · subst h2
      simp [generateWorkout, h1]
    · by_cases h3 : isQualityDayFor rpw d c (runDaysFor rpw c)
      · cases phase <;> simp [generateWorkout, h1, h2, h3]
      · simp [generateWorkout, h1, h2, h3]
  · simp [generateWorkout, h1]

/-- C2 (amended): in the final week exactly one of the 7 workouts has type
Race Day, it carries intensity High and the canonical race distance, and it
sits at index 6 (the Sunday slot) — the source always overwrites workouts[6],
not the designated long-run day. -/
theorem c2_race_week_exactly_one_race_day (weekNumber weeksUntilRace : ℕ)
    (base : ℚ) (m : DetailedTrainingMetrics) (rd : RaceDistance) (rpw : ℕ)
    (c : Option (List ℕ)) (prev : Option ℚ) (sd : Option ℤ) (now : ℤ)
    (hrem : weeksRemainingOf weekNumber weeksUntilRace = 1) :
    ((generateWeeklyPlan weekNumber weeksUntilRace base m rd rpw c prev sd now).workouts.countP
        (fun w => w.type == WorkoutType.RaceDay)) = 1 ∧
    ((generateWeeklyPlan weekNumber weeksUntilRace base m rd rpw c prev sd now).workouts.getD 6
        defaultWorkout).type = .RaceDay ∧
    ((generateWeeklyPlan weekNumber weeksUntilRace base m rd rpw c prev sd now).workouts.getD 6
        defaultWorkout).intensity = .High ∧
    ((generateWeeklyPlan weekNumber weeksUntilRace base m rd rpw c prev sd now).workouts.getD 6
        defaultWorkout).distance = some (RACE_DISTANCES rd) ∧
    (generateWeeklyPlan weekNumber weeksUntilRace base m rd rpw c prev sd now).workouts.length
      = 7 := by
  have hw : (generateWeeklyPlan weekNumber weeksUntilRace base m rd rpw c prev sd now).workouts
      = weekWorkouts weekNumber weeksUntilRace base m rd rpw c prev := rfl
  have hset : weekWorkouts weekNumber weeksUntilRace base m rd rpw c prev
      = ((List.range 7).map fun day =>
          generateWorkout (phaseOf weekNumber weeksUntilRace) day
            (assignedWeeklyKilometers weekNumber weeksUntilRace base rd prev) m rd rpw c).set 6
        (raceDayWorkout rd) := by
    unfold weekWorkouts
    rw [if_pos hrem]
  rw [hw, hset]
  have hr : List.range 7 = [0, 1, 2, 3, 4, 5, 6] := rfl
  rw [hr]
  simp only [List.map_cons, List.map_nil, List.set]
  refine ⟨?_, rfl, rfl, rfl, rfl⟩
  simp only [List.countP_cons, List.countP_nil]
  have h0 := generateWorkout_type_ne_raceDay (phaseOf weekNumber weeksUntilRace) 0
    (assignedWeeklyKilometers weekNumber weeksUntilRace base rd prev) m rd rpw c
  have h1 := generateWorkout_type_ne_raceDay (phaseOf weekNumber weeksUntilRace) 1
    (assignedWeeklyKilometers weekNumber weeksUntilRace base rd prev) m rd rpw c
  have h2 := generateWorkout_type_ne_raceDay (phaseOf weekNumber weeksUntilRace) 2
    (assignedWeeklyKilometers weekNumber weeksUntilRace base rd prev) m rd rpw c
  have h3 := generateWorkout_type_ne_raceDay (phaseOf weekNumber weeksUntilRace) 3
    (assignedWeeklyKilometers weekNumber weeksUntilRace base rd prev) m rd rpw c
  have h4 := generateWorkout_type_ne_raceDay (phaseOf weekNumber weeksUntilRace) 4
    (assignedWeeklyKilometers weekNumber weeksUntilRace base rd prev) m rd rpw c
  have h5 := generateWorkout_type_ne_raceDay (phaseOf weekNumber weeksUntilRace) 5
    (assignedWeeklyKilometers weekNumber weeksUntilRace base rd prev) m rd rpw c
  simp [raceDayWorkout, h0, h1, h2, h3, h4, h5]

/-- C2 witness: the final week of an 8-week marathon plan at week 8. -/
theorem c2_race_week_exactly_one_race_day_witness :
    weeksRemainingOf 8 8 = 1 ∧
    ((generateWeeklyPlan 8 8 12 metrics0 .marathon 3 none (some 10) (some 0) 0).workouts.countP
        (fun w => w.type == WorkoutType.RaceDay)) = 1 ∧
    ((generateWeeklyPlan 8 8 12 metrics0 .marathon 3 none (some 10) (some 0) 0).workouts.getD 6
        defaultWorkout).distance = some (RACE_DISTANCES .marathon) :=
  ⟨by decide,
   (c2_race_week_exactly_one_race_day 8 8 12 metrics0 .marathon 3 none (some 10) (some 0) 0
      (by decide)).1,
   (c2_race_week_exactly_one_race_day 8 8 12 metrics0 .marathon 3 none (some 10) (some 0) 0
      (by decide)).2.2.2.1⟩

/-- The final week of an 8-week plan with custom training days Monday,
Wednesday and Friday: the designated long-run day is Friday (index 4). -/
def weekC2 : WeeklyPlan :=
  generateWeeklyPlan 8 8 12 metrics0 .tenK 3 (some [0, 2, 4]) (some 10) (some 0) 0

/-- C2 counterexample: with a custom day list whose long-run day is Friday,
the race-week override still lands on index 6 (Sunday, a rest day), and the
designated long-run day keeps its Long Run workout — refuting the claim that
Race Day replaces the last day of the run-day list. -/
theorem c2_race_day_not_on_long_run_day_counterexample :
    (runDaysFor 3 (some [0, 2, 4])).getLastD 7 = 4 ∧
    (weekC2.workouts.getD 4 defaultWorkout).type = .LongRun ∧
    (weekC2.workouts.getD 4 defaultWorkout).type ≠ .RaceDay ∧
    (weekC2.workouts.getD 6 defaultWorkout).type = .RaceDay ∧
    (weekC2.workouts.getD 6 defaultWorkout).day = "Sunday" := by
  refine ⟨by decide, ?_, ?_, ?_, ?_⟩ <;> with_unfolding_all decide

/-! C4. Pace zones -/

/-- C4 (amended): the pace zones are the fixed multiples of the recent average
pace, and for a positive reference pace they are ordered by effort exactly as
the multipliers dictate — except that the long zone straddles the lower bound
of the easy zone (long.min sits faster than easy.min, long.max slower), rather
than sitting wholly slower than it. -/
theorem c4_pace_zone_multipliers_and_order (now : ℤ) (activities : List StravaActivity)
    (wk ap lr : ℚ) (cnt : ℕ) (hp : 0 < recentAvgPaceOf now activities ap) :
    (calculateDetailedMetrics now activities wk ap lr cnt).paceZones
      = { easy := ⟨recentAvgPaceOf now activities ap * 1.15, recentAvgPaceOf now activities ap * 1.3⟩,
          tempo := ⟨recentAvgPaceOf now activities ap * 0.9, recentAvgPaceOf now activities ap * 0.95⟩,
          threshold := ⟨recentAvgPaceOf now activities ap * 0.85, recentAvgPaceOf now activities ap * 0.9⟩,
          interval := ⟨recentAvgPaceOf now activities ap * 0.75, recentAvgPaceOf now activities ap * 0.85⟩,
          long := ⟨recentAvgPaceOf now activities ap * 1.1, recentAvgPaceOf now activities ap * 1.2⟩ } ∧
    ((calculateDetailedMetrics now activities wk ap lr cnt).paceZones.easy.max
        > (calculateDetailedMetrics now activities wk ap lr cnt).paceZones.easy.min ∧
      (calculateDetailedMetrics now activities wk ap lr cnt).paceZones.easy.min
        > recentAvgPaceOf now activities ap ∧
      recentAvgPaceOf now activities ap
        > (calculateDetailedMetrics now activities wk ap lr cnt).paceZones.interval.min) ∧
    ((calculateDetailedMetrics now activities wk ap lr cnt).paceZones.interval.min
        < (calculateDetailedMetrics now activities wk ap lr cnt).paceZones.threshold.min ∧
      (calculateDetailedMetrics now activities wk ap lr cnt).paceZones.threshold.min
        < (calculateDetailedMetrics now activities wk ap lr cnt).paceZones.tempo.min ∧
      (calculateDetailedMetrics now activities wk ap lr cnt).paceZones.tempo.min
        < (calculateDetailedMetrics now activities wk ap lr cnt).paceZones.long.min ∧
      (calculateDetailedMetrics now activities wk ap lr cnt).paceZones.long.min
        < (calculateDetailedMetrics now activities wk ap lr cnt).paceZones.easy.min) ∧
    ((calculateDetailedMetrics now activities wk ap lr cnt).paceZones.interval.max
        < (calculateDetailedMetrics now activities wk ap lr cnt).paceZones.threshold.max ∧
      (calculateDetailedMetrics now activities wk ap lr cnt).paceZones.threshold.max
        < (calculateDetailedMetrics now activities wk ap lr cnt).paceZones.tempo.max ∧
      (calculateDetailedMetrics now activities wk ap lr cnt).paceZones.tempo.max
        < (calculateDetailedMetrics now activities wk ap lr cnt).paceZones.long.max ∧
      (calculateDetailedMetrics now activities wk ap lr cnt).paceZones.long.max
        < (calculateDetailedMetrics now activities wk ap lr cnt).paceZones.easy.max) ∧
    ((calculateDetailedMetrics now activities wk ap lr cnt).paceZones.long.min
        < (calculateDetailedMetrics now activities wk ap lr cnt).paceZones.easy.min ∧
      (calculateDetailedMetrics now activities wk ap lr cnt).paceZones.easy.min
        < (calculateDetailedMetrics now activities wk ap lr cnt).paceZones.long.max) := by
  have hz : (calculateDetailedMetrics now activities wk ap lr cnt).paceZones
      = paceZonesOf (recentAvgPaceOf now activities ap) := rfl
  rw [hz]
  set p := recentAvgPaceOf now activities ap with hpdef
  unfold paceZonesOf
  refine ⟨rfl, ⟨?_, ?_, ?_⟩, ⟨?_, ?_, ?_, ?_⟩, ⟨?_, ?_, ?_, ?_⟩, ?_, ?_⟩ <;>
    simp only <;> nlinarith [hp]

/-- C4 witness at an empty activity list with avgPace 5. -/
theorem c4_pace_zone_multipliers_and_order_witness :
    0 < recentAvgPaceOf 0 [] 5 ∧
    (calculateDetailedMetrics 0 [] 0 5 0 0).paceZones.easy.min
      > recentAvgPaceOf 0 [] 5 ∧
    (calculateDetailedMetrics 0 [] 0 5 0 0).paceZones.long.min
      < (calculateDetailedMetrics 0 [] 0 5 0 0).paceZones.easy.min :=
  ⟨by with_unfolding_all decide,
   (c4_pace_zone_multipliers_and_order 0 [] 0 5 0 0
      (by with_unfolding_all decide)).2.1.2.1,
   (c4_pace_zone_multipliers_and_order 0 [] 0 5 0 0
      (by with_unfolding_all decide)).2.2.2.2.1⟩

/-- C4 counterexample: at recent average pace 5 the lower bound of the long
zone, 5.5 min/km, is faster (smaller) than the lower bound of the easy zone,
5.75 min/km, refuting the claim that the long zone sits slower (higher min/km)
than the easy lower bound. -/
theorem c4_long_zone_below_easy_min_counterexample :
    recentAvgPaceOf 0 [] 5 = 5 ∧
    (calculateDetailedMetrics 0 [] 0 5 0 0).paceZones.long.min = 5.5 ∧
    (calculateDetailedMetrics 0 [] 0 5 0 0).paceZones.easy.min = 5.75 ∧
    ¬ ((calculateDetailedMetrics 0 [] 0 5 0 0).paceZones.long.min
        > (calculateDetailedMetrics 0 [] 0 5 0 0).paceZones.easy.min) := by
  refine ⟨?_, ?_, ?_, ?_⟩ <;> with_unfolding_all decide

/-! C6. totalKilometers is the rounded per-day sum -/

/-- C6: for every generated weekly plan, totalKilometers equals the one-decimal
rounding of the sum of the 7 workout distances (rest days contributing 0), and
it therefore differs from the unrounded phase target and the assigned
weekly-volume figure whenever those differ from the rounded per-day sum. -/
theorem c6_total_is_rounded_workout_sum (weekNumber weeksUntilRace : ℕ) (base : ℚ)
    (m : DetailedTrainingMetrics) (rd : RaceDistance) (rpw : ℕ) (c : Option (List ℕ))
    (prev : Option ℚ) (sd : Option ℤ) (now : ℤ) :
    (generateWeeklyPlan weekNumber weeksUntilRace base m rd rpw c prev sd now).totalKilometers
      = round1 (((generateWeeklyPlan weekNumber weeksUntilRace base m rd rpw c prev sd
          now).workouts.map fun w => w.distance.getD 0).sum) ∧
    (generateWeeklyPlan weekNumber weeksUntilRace base m rd rpw c prev sd now).workouts.length
      = 7 ∧
    (targetWeeklyKilometersOf weekNumber weeksUntilRace base
        ≠ round1 (((generateWeeklyPlan weekNumber weeksUntilRace base m rd rpw c prev sd
            now).workouts.map fun w => w.distance.getD 0).sum) →
      (generateWeeklyPlan weekNumber weeksUntilRace base m rd rpw c prev sd now).totalKilometers
        ≠ targetWeeklyKilometersOf weekNumber weeksUntilRace base) ∧
    (assignedWeeklyKilometersPre weekNumber weeksUntilRace base rd prev
        ≠ round1 (((generateWeeklyPlan weekNumber weeksUntilRace base m rd rpw c prev sd
            now).workouts.map fun w => w.distance.getD 0).sum) →
      (generateWeeklyPlan weekNumber weeksUntilRace base m rd rpw c prev sd now).totalKilometers
        ≠ assignedWeeklyKilometersPre weekNumber weeksUntilRace base rd prev) := by
  have h1 : (generateWeeklyPlan weekNumber weeksUntilRace base m rd rpw c prev sd
      now).totalKilometers
      = round1 (((generateWeeklyPlan weekNumber weeksUntilRace base m rd rpw c prev sd
          now).workouts.map fun w => w.distance.getD 0).sum) := rfl
  have h2 : (generateWeeklyPlan weekNumber weeksUntilRace base m rd rpw c prev sd
      now).workouts.length = 7 := by
    show (weekWorkouts weekNumber weeksUntilRace base m rd rpw c prev).length = 7
    unfold weekWorkouts
    split <;> simp
  exact ⟨h1, h2, fun h hc => h (hc.symm.trans h1), fun h hc => h (hc.symm.trans h1)⟩

/-- C6 witness: week 2 of the 16-week 10K scenario, where the unrounded phase
target differs from the rounded per-day sum. -/
theorem c6_total_is_rounded_workout_sum_witness :
    (generateWeeklyPlan 2 16 12 metrics0 .tenK 3 none (some 9.6) (some 0) 0).totalKilometers
      = round1 (((generateWeeklyPlan 2 16 12 metrics0 .tenK 3 none (some 9.6) (some 0)
          0).workouts.map fun w => w.distance.getD 0).sum) ∧
    (generateWeeklyPlan 2 16 12 metrics0 .tenK 3 none (some 9.6) (some 0) 0).totalKilometers
      ≠ targetWeeklyKilometersOf 2 16 12 ∧
    (generateWeeklyPlan 2 16 12 metrics0 .tenK 3 none (some 9.6) (some 0) 0).totalKilometers
      ≠ assignedWeeklyKilometersPre 2 16 12 .tenK (some 9.6) :=
  ⟨(c6_total_is_rounded_workout_sum 2 16 12 metrics0 .tenK 3 none (some 9.6) (some 0) 0).1,
   (c6_total_is_rounded_workout_sum 2 16 12 metrics0 .tenK 3 none (some 9.6) (some 0)
      0).2.2.1 (by with_unfolding_all decide),
   (c6_total_is_rounded_workout_sum 2 16 12 metrics0 .tenK 3 none (some 9.6) (some 0)
      0).2.2.2 (by with_unfolding_all decide)⟩

/-! C7. Fewer than five qualifying runs -/

/-- C7: with fewer than 5 qualifying runs (type Run within the trailing 24
weeks), all four predictions come back unavailable with null time and pace and
the shared shortfall reason, whose first 20 characters read Need at least 5
runs. -/
theorem c7_under_five_runs_all_unavailable (rpow06 jsLn : ℚ → ℚ) (now : ℤ)
    (activities : List StravaActivity)
    (h : (recentRunsFilter now activities).length < minRuns5K) :
    (calculateRacePredictions rpow06 jsLn now activities)._5K
      = { available := false, time := none, pace := none,
          reason := insufficientRunsReason (recentRunsFilter now activities).length } ∧
    (calculateRacePredictions rpow06 jsLn now activities)._10K
      = { available := false, time := none, pace := none,
          reason := insufficientRunsReason (recentRunsFilter now activities).length } ∧
    (calculateRacePredictions rpow06 jsLn now activities).halfMarathon
      = { available := false, time := none, pace := none,
          reason := insufficientRunsReason (recentRunsFilter now activities).length } ∧
    (calculateRacePredictions rpow06 jsLn now activities).marathon
      = { available := false, time := none, pace := none,
          reason := insufficientRunsReason (recentRunsFilter now activities).length } ∧
    (insufficientRunsReason (recentRunsFilter now activities).length).data.take 20
      = "Need at least 5 runs".data := by
  refine ⟨?_, ?_, ?_, ?_, by with_unfolding_all rfl⟩ <;>
    (simp only [calculateRacePredictions]; rw [if_pos h])

/-- C7 witness: the empty activity list. -/
theorem c7_under_five_runs_all_unavailable_witness :
    (recentRunsFilter 0 []).length < minRuns5K ∧
    (calculateRacePredictions (fun q => q) (fun q => q) 0 [])._5K
      = { available := false, time := none, pace := none,
          reason := insufficientRunsReason (recentRunsFilter 0 []).length } ∧
    (insufficientRunsReason (recentRunsFilter 0 []).length).data.take 20
      = "Need at least 5 runs".data :=
  ⟨by decide,
   (c7_under_five_runs_all_unavailable (fun q => q) (fun q => q) 0 [] (by decide)).1,
   (c7_under_five_runs_all_unavailable (fun q => q) (fun q => q) 0 [] (by decide)).2.2.2.2⟩

/-! C8. The 16-week 10K scenario from a 12 km/week base -/

/-- C8 (amended): in the 16-week 10K plan from a 12 km/week base, week 1 is
assigned 12 × 0.8 = 9.6 km and reports totalKilometers 9.6; the week 2
assigned volume before rounding is min(9.6 × 1.10, 65) = 10.56, which is rounded to
10.6 before workouts are generated, and the reported totalKilometers is the
per-day sum 10.5 (for 3 runs per week). -/
theorem c8_week1_and_week2_totals :
    plan16.plan.length = 16 ∧
    assignedWeeklyKilometersPre 1 16 12 .tenK none = 9.6 ∧
    (plan16.plan.getD 0 defaultWeeklyPlan).totalKilometers = 9.6 ∧
    assignedWeeklyKilometersPre 2 16 12 .tenK (some 9.6) = 10.56 ∧
    assignedWeeklyKilometers 2 16 12 .tenK (some 9.6) = 10.6 ∧
    (plan16.plan.getD 1 defaultWeeklyPlan).totalKilometers = 10.5 := by
  refine ⟨?_, ?_, ?_, ?_, ?_, ?_⟩ <;> with_unfolding_all decide

/-- C8 counterexample: the week 2 reported totalKilometers is 10.5, not the
claimed 10.56 — the assigned volume is rounded to one decimal and the report
is the per-day sum, so a two-decimal total is never reported. -/
theorem c8_week2_total_counterexample :
    (plan16.plan.getD 1 defaultWeeklyPlan).totalKilometers = 10.5 ∧
    ¬ ((plan16.plan.getD 1 defaultWeeklyPlan).totalKilometers = 10.56) := by
  refine ⟨?_, ?_⟩ <;> with_unfolding_all decide

/-! C10. A race date on or before the plan start -/

theorem jsCeil_nonpos {q : ℚ} (h : q ≤ 0) : jsCeil q ≤ 0 := by
  unfold jsCeil
  exact Int.ceil_le.mpr (by simpa using h)

theorem recommendationsOf_ne_nil (w : ℤ) (m : DetailedTrainingMetrics) (r b : ℚ)
    (f : String) : recommendationsOf w m r b f ≠ [] := by
  unfold recommendationsOf
  intro h
  have hl := congrArg List.length h
  simp [List.length_append] at hl

/-- C10: when the race date is on or before the plan start date,
getWeeksUntilRace is 0 or negative and the generated TrainingPlan has an empty
plan list while still reporting weeksUntilRace, the fitness classification,
the estimated race time and a nonempty recommendations list. -/
theorem c10_race_on_or_before_start_empty_plan (now : ℤ) (goal : RaceGoal)
    (metrics : DetailedTrainingMetrics) (pft : Option String)
    (h : goal.date ≤ goal.startDate.getD now) :
    getWeeksUntilRace now goal.date goal.startDate ≤ 0 ∧
    (generateTrainingPlan now goal metrics pft).plan = [] ∧
    (generateTrainingPlan now goal metrics pft).weeksUntilRace
      = getWeeksUntilRace now goal.date goal.startDate ∧
    (generateTrainingPlan now goal metrics pft).currentFitness
      = assessFitnessLevel metrics goal.distance ∧
    (generateTrainingPlan now goal metrics pft).estimatedRaceTime
      = estimatedRaceTimeOf pft goal.targetTime ∧
    (generateTrainingPlan now goal metrics pft).recommendations ≠ [] := by
  have hd : ((goal.date - goal.startDate.getD now : ℤ) : ℚ) / 86400000 ≤ 0 := by
    apply div_nonpos_of_nonpos_of_nonneg
    · exact_mod_cast sub_nonpos.mpr h
    · norm_num
  have hdays : jsCeil (((goal.date - goal.startDate.getD now : ℤ) : ℚ) / 86400000) ≤ 0 :=
    jsCeil_nonpos hd
  have hw : getWeeksUntilRace now goal.date goal.startDate ≤ 0 := by
    unfold getWeeksUntilRace
    apply jsCeil_nonpos
    apply div_nonpos_of_nonpos_of_nonneg
    · exact_mod_cast hdays
    · norm_num
  have htoNat : (getWeeksUntilRace now goal.date goal.startDate).toNat = 0 :=
    Int.toNat_of_nonpos hw
  have hplan : (generateTrainingPlan now goal metrics pft).plan
      = planWeeks (getWeeksUntilRace now goal.date goal.startDate).toNat
          (baseWeeklyKilometersOf metrics goal.distance) metrics goal.distance
          goal.runsPerWeek goal.trainingDays goal.startDate now := rfl
  refine ⟨hw, ?_, rfl, rfl, rfl, recommendationsOf_ne_nil _ _ _ _ _⟩
  rw [hplan, htoNat]
  rfl

/-- A goal whose race date equals the plan start date. -/
def goalPast : RaceGoal :=
  { date := 0, startDate := some 0, distance := .fiveK, runsPerWeek := 3 }

/-- C10 witness: race date equal to the start date. -/
theorem c10_race_on_or_before_start_empty_plan_witness :
    goalPast.date ≤ goalPast.startDate.getD 0 ∧
    getWeeksUntilRace 0 goalPast.date goalPast.startDate ≤ 0 ∧
    (generateTrainingPlan 0 goalPast metrics0 none).plan = [] ∧
    (generateTrainingPlan 0 goalPast metrics0 none).recommendations ≠ [] :=
  ⟨by decide,
   (c10_race_on_or_before_start_empty_plan 0 goalPast metrics0 none (by decide)).1,
   (c10_race_on_or_before_start_empty_plan 0 goalPast metrics0 none (by decide)).2.1,
   (c10_race_on_or_before_start_empty_plan 0 goalPast metrics0 none (by decide)).2.2.2.2.2⟩

/-! C5. Pacing split reconstruction -/

theorem jsMod_one {d : ℚ} (hd : 0 ≤ d) : jsMod d 1 = d - (⌊d⌋ : ℚ) := by
  unfold jsMod jsTrunc
  rw [div_one, if_pos hd]
  ring

theorem pacingFold_map_distance (d pace : ℚ) (s : PacingKind) (l : List ℕ) :
    ∀ acc : List PacingSplit × ℚ × ℚ,
      ((l.foldl (pacingStep d pace s) acc).1).map (fun x => x.distance)
        = (acc.1.map fun x => x.distance)
            ++ l.map (fun idx => pacingSplitDistance d (idx + 1)) := by
  induction l with
  | nil => intro acc; simp
  | cons a t ih =>
    intro acc
    rw [List.foldl_cons, ih]
    simp [pacingStep]

theorem pacingFold_map_time (d pace : ℚ) (s : PacingKind) (l : List ℕ) :
    ∀ acc : List PacingSplit × ℚ × ℚ,
      ((l.foldl (pacingStep d pace s) acc).1).map (fun x => x.targetTime)
        = (acc.1.map fun x => x.targetTime)
            ++ l.map (fun idx =>
                (pacingSplitPaceNote d pace s (idx + 1)).1 * pacingSplitDistance d (idx + 1)) := by
  induction l with
  | nil => intro acc; simp
  | cons a t ih =>
    intro acc
    rw [List.foldl_cons, ih]
    simp [pacingStep]

theorem sum_map_one (k : ℕ) : ((List.range k).map fun _ => (1 : ℚ)).sum = k := by
  induction k with
  | zero => simp
  | succ n ih =>
    rw [List.range_succ, List.map_append, List.sum_append, ih]
    push_cast
    simp

theorem sum_pacingSplitDistance {d : ℚ} (hd : 0 < d) :
    ((List.range (jsCeil d).toNat).map fun idx => pacingSplitDistance d (idx + 1)).sum
      = d := by
  have hfl0 : (0 : ℤ) ≤ ⌊d⌋ := Int.floor_nonneg.mpr hd.le
  set m : ℕ := ⌊d⌋.toNat with hm
  have hmZ : (m : ℤ) = ⌊d⌋ := Int.toNat_of_nonneg hfl0
  have hmQ : ((m : ℕ) : ℚ) = ((⌊d⌋ : ℤ) : ℚ) := by exact_mod_cast hmZ
  have hsplit1 : ∀ idx : ℕ, idx ∈ List.range m →
      pacingSplitDistance d (idx + 1) = (fun _ : ℕ => (1 : ℚ)) idx := by
    intro idx hidx
    have hidx2 : idx + 1 ≤ m := List.mem_range.mp hidx
    unfold pacingSplitDistance jsFloor
    rw [if_pos]
    have : ((idx + 1 : ℕ) : ℚ) ≤ (m : ℚ) := by exact_mod_cast hidx2
    push_cast at this ⊢
    linarith [hmQ, this]
  by_cases hint : ((⌊d⌋ : ℚ)) = d
  · have hceil : ⌈d⌉ = ⌊d⌋ := by rw [← hint]; exact Int.ceil_intCast _
    have hn : (jsCeil d).toNat = m := by unfold jsCeil; rw [hceil, hm]
    rw [hn, List.map_congr_left hsplit1, sum_map_one, hmQ, hint]
  · have hlt : (⌊d⌋ : ℚ) < d := lt_of_le_of_ne (Int.floor_le d) hint
    have hceil : ⌈d⌉ = ⌊d⌋ + 1 := by
      have h1 : ⌈d⌉ ≤ ⌊d⌋ + 1 := Int.ceil_le_floor_add_one d
      have h2 : ⌊d⌋ < ⌈d⌉ := Int.lt_ceil.mpr hlt
      omega
    have hn : (jsCeil d).toNat = m + 1 := by unfold jsCeil; rw [hceil]; omega
    have hlast : pacingSplitDistance d (m + 1) = d - (⌊d⌋ : ℚ) := by
      unfold pacingSplitDistance jsFloor
      rw [if_neg, jsMod_one hd.le]
      push_cast
      push_cast at hmQ
      linarith
    rw [hn, List.range_succ, List.map_append, List.sum_append,
      List.map_congr_left hsplit1, sum_map_one]
    simp only [List.map_cons, List.map_nil, List.sum_cons, List.sum_nil, hlast]
    push_cast at hmQ ⊢
    linarith

theorem pacingSplitPaceNote_even {d : ℚ} (pace : ℚ) (hd : d < 21.1) (i : ℕ) :
    pacingSplitPaceNote d pace .even i = (pace, "Even pace") := by
  unfold pacingSplitPaceNote
  rw [if_neg (not_le.mpr hd)]

/-- C5 (amended): the split distances always reconstruct the race distance
exactly, and for the even strategy on races shorter than 21.1 km the split
times reconstruct the strategy targetTime exactly; the negative and positive
modulations and the late-race fatigue factor bias the time sum away from
targetTime (see the counterexample). -/
theorem c5_split_reconstruction (d pace : ℚ) (strat : PacingKind) (hd : 0 < d) :
    ((generatePacingStrategy d pace strat).splits.map fun s => s.distance).sum = d ∧
    (strat = .even → d < 21.1 →
      ((generatePacingStrategy d pace strat).splits.map fun s => s.targetTime).sum
        = (generatePacingStrategy d pace strat).targetTime) := by
  have hsplits : (generatePacingStrategy d pace strat).splits
      = ((List.range (jsCeil d).toNat).foldl (pacingStep d pace strat) ([], 0, 0)).1 := rfl
  constructor
  · rw [hsplits, pacingFold_map_distance]
    simpa using sum_pacingSplitDistance hd
  · rintro rfl hd2
    have htt : (generatePacingStrategy d pace .even).targetTime = pace * d := rfl
    rw [hsplits, pacingFold_map_time, htt]
    have heach : ∀ idx ∈ List.range (jsCeil d).toNat,
        (pacingSplitPaceNote d pace .even (idx + 1)).1 * pacingSplitDistance d (idx + 1)
          = (fun i : ℕ => pace * pacingSplitDistance d (i + 1)) idx := by
      intro idx _
      rw [pacingSplitPaceNote_even pace hd2]
    rw [List.map_congr_left heach]
    simp only [List.map_nil, List.nil_append]
    rw [List.sum_map_mul_left, sum_pacingSplitDistance hd]

/-- C5 witness: the 10 km even scenario — 10 splits of 1 km at pace 5, the
distances sum to 10 and the times sum to the 50-minute targetTime. -/
theorem c5_split_reconstruction_witness :
    (0 : ℚ) < 10 ∧
    ((generatePacingStrategy 10 5 .even).splits.map fun s => s.distance).sum = 10 ∧
    ((generatePacingStrategy 10 5 .even).splits.map fun s => s.targetTime).sum
      = (generatePacingStrategy 10 5 .even).targetTime :=
  ⟨by norm_num, (c5_split_reconstruction 10 5 .even (by norm_num)).1,
   (c5_split_reconstruction 10 5 .even (by norm_num)).2 rfl (by norm_num)⟩

/-- C5 counterexample: the 5 km negative-split strategy. The split times sum
to 24.9 minutes against a targetTime of 25 — a 0.1-minute mismatch produced by
the asymmetric halves, not by any rounding (the pacing code performs none). -/
theorem c5_time_sum_counterexample :
    ((generatePacingStrategy 5 5 .negative).splits.map fun s => s.targetTime).sum
      = 249 / 10 ∧
    (generatePacingStrategy 5 5 .negative).targetTime = 25 ∧
    ¬ (((generatePacingStrategy 5 5 .negative).splits.map fun s => s.targetTime).sum
        = (generatePacingStrategy 5 5 .negative).targetTime) := by
  refine ⟨?_, ?_, ?_⟩ <;> with_unfolding_all decide

/-! C9. The IQR outlier filter never empties the pool -/

/-- C9: estimatePaceFromTraining returns null exactly when the valid-run pool
is empty, because the 1.5-IQR band always retains the run attaining pace q1,
so the fallback that re-adds the 5 most recent runs is unreachable. -/
theorem c9_iqr_filter_keeps_q1_run (rpow06 jsLn : ℚ → ℚ) (now : ℤ)
    (activities : List StravaActivity) (targetDistance : ℚ) :
    (estimatePaceFromTraining rpow06 jsLn now activities targetDistance = none
      ↔ validRunsOf now activities = []) ∧
    (validRunsOf now activities ≠ [] → iqrFilteredRuns now activities ≠ []) := by
  have key : validRunsOf now activities ≠ [] → iqrFilteredRuns now activities ≠ [] := by
    intro hne
    have hwne : weightedRunsOf now activities ≠ [] := by
      unfold weightedRunsOf
      intro hmap
      exact hne (by simpa using hmap)
    have hlen : (sortedPacesOf now activities).length
        = (weightedRunsOf now activities).length := by
      unfold sortedPacesOf
      rw [List.length_mergeSort, List.length_map]
    have hpos : 0 < (sortedPacesOf now activities).length := by
      rw [hlen]
      exact List.length_pos.mpr hwne
    have hq1idx : (sortedPacesOf now activities).length / 4
        < (sortedPacesOf now activities).length :=
      Nat.div_lt_self hpos (by norm_num)
    have hq3idx : (sortedPacesOf now activities).length * 3 / 4
        < (sortedPacesOf now activities).length := by
      rw [Nat.div_lt_iff_lt_mul (by norm_num : 0 < 4)]
      omega
    have hq1mem : q1Of now activities ∈ sortedPacesOf now activities := by
      simp only [q1Of]
      rw [List.getD_eq_getElem _ _ hq1idx]
      exact List.getElem_mem _
    have hsorted : List.Pairwise (fun a b : ℚ => (decide (a ≤ b)) = true)
        (sortedPacesOf now activities) := by
      unfold sortedPacesOf
      exact List.sorted_mergeSort
        (by intro a b c hab hbc; simp only [decide_eq_true_eq] at *; exact le_trans hab hbc)
        (by intro a b; simpa [Bool.or_eq_true, decide_eq_true_eq] using le_total a b) _
    have hq13 : q1Of now activities ≤ q3Of now activities := by
      simp only [q1Of, q3Of]
      rcases Nat.lt_or_ge ((sortedPacesOf now activities).length / 4)
          ((sortedPacesOf now activities).length * 3 / 4) with hlt | hge
      · rw [List.getD_eq_getElem _ _ hq1idx, List.getD_eq_getElem _ _ hq3idx]
        have := List.pairwise_iff_get.mp hsorted ⟨_, hq1idx⟩ ⟨_, hq3idx⟩ hlt
        simpa [decide_eq_true_eq] using this
      · have hle : (sortedPacesOf now activities).length / 4
            ≤ (sortedPacesOf now activities).length * 3 / 4 :=
          Nat.div_le_div_right (by omega)
        rw [Nat.le_antisymm hle hge]
    have hq1mem2 : q1Of now activities
        ∈ (weightedRunsOf now activities).map (fun r => r.pace) := by
      unfold sortedPacesOf at hq1mem
      exact List.mem_mergeSort.mp hq1mem
    obtain ⟨r, hrmem, hrpace⟩ := List.mem_map.mp hq1mem2
    apply List.ne_nil_of_mem (a := r)
    simp only [iqrFilteredRuns, List.mem_filter]
    refine ⟨hrmem, ?_⟩
    rw [hrpace]
    simp only [Bool.and_eq_true, decide_eq_true_eq]
    constructor
    · linarith [hq13]
    · linarith [hq13]
  refine ⟨⟨?_, ?_⟩, key⟩
  · intro hnone
    by_contra hvne
    obtain ⟨b, L, hbl⟩ := List.exists_cons_of_ne_nil (key hvne)
    have hlen0 : ¬ (validRunsOf now activities).length = 0 := by
      simpa [List.length_eq_zero] using hvne
    have hlen1 : ¬ (iqrFilteredRuns now activities).length = 0 := by
      simpa [List.length_eq_zero] using key hvne
    simp only [estimatePaceFromTraining] at hnone
    rw [if_neg hlen0, if_neg hlen1, hbl] at hnone
    simp at hnone
  · intro hv
    simp only [estimatePaceFromTraining]
    rw [if_pos (by simp [hv])]

/-- A single in-range training run: 5 km in 25 minutes. -/
def c9Run : StravaActivity :=
  { distance := 5000, moving_time := 1500, start_date := 0, type := "Run" }

/-- C9 witness: with one valid run the estimate is non-null and the IQR filter
keeps the pool nonempty. -/
theorem c9_iqr_filter_keeps_q1_run_witness :
    validRunsOf 0 [c9Run] ≠ [] ∧
    estimatePaceFromTraining (fun q => q) (fun q => q) 0 [c9Run] 10 ≠ none ∧
    iqrFilteredRuns 0 [c9Run] ≠ [] :=
  ⟨by with_unfolding_all decide,
   fun h =>
     (by with_unfolding_all decide : validRunsOf 0 [c9Run] ≠ [])
       ((c9_iqr_filter_keeps_q1_run (fun q => q) (fun q => q) 0 [c9Run] 10).1.mp h),
   (c9_iqr_filter_keeps_q1_run (fun q => q) (fun q => q) 0 [c9Run] 10).2
     (by with_unfolding_all decide)⟩

/-! C3. The plus-ten-percent progression ceiling -/

theorem generateWorkout_distance_eq (phase : Phase) (d : ℕ) (W : ℚ)
    (m : DetailedTrainingMetrics) (rd : RaceDistance) (rpw : ℕ) (c : Option (List ℕ)) :
    (generateWorkout phase d W m rd rpw c).distance =
      if d ∈ runDaysFor rpw c then
        (if d = (runDaysFor rpw c).getLastD 7 then some (round1 (W * 0.35))
         else some (otherRunDistanceOf W (runDaysFor rpw c)))
      else none := by
  by_cases h1 : d ∈ runDaysFor rpw c
  · by_cases h2 : d = (runDaysFor rpw c).getLast?.getD 7
    · subst h2
      simp [generateWorkout, List.getLastD_eq_getLast?, h1]
    · by_cases h3 : isQualityDayFor rpw d c (runDaysFor rpw c)
      · cases phase <;> simp [generateWorkout, List.getLastD_eq_getLast?, h1, h2, h3]
      · simp [generateWorkout, List.getLastD_eq_getLast?, h1, h2, h3]
  · simp [generateWorkout, h1]

theorem sum_map_split (l : List ℕ) (f g : ℕ → ℚ) :
    (l.map fun d => f d + g d).sum = (l.map f).sum + (l.map g).sum := by
  induction l with
  | nil => simp
  | cons a t ih => simp only [List.map_cons, List.sum_cons, ih]; ring

theorem sum_map_ite_const (l : List ℕ) (p : ℕ → Bool) (x : ℚ) :
    (l.map fun d => if p d then x else 0).sum = ((l.filter p).length : ℚ) * x := by
  induction l with
  | nil => simp
  | cons a t ih =>
    by_cases h : p a <;>
      simp only [List.map_cons, List.sum_cons, List.filter_cons, h, if_true, if_false,
        Bool.false_eq_true, List.length_cons, ih] <;> push_cast <;> ring

theorem length_le_one_of_all_eq {l : List ℕ} {a : ℕ} (hn : l.Nodup)
    (h : ∀ x ∈ l, x = a) : l.length ≤ 1 := by
  cases l with
  | nil => simp
  | cons x t =>
    cases t with
    | nil => simp
    | cons y u =>
      exfalso
      have hx : x = a := h x (by simp)
      have hy : y = a := h y (by simp)
      exact (List.nodup_cons.mp hn).1 (by simp [hx, hy])

theorem filter_disjoint_length_le (l : List ℕ) (p q : ℕ → Bool)
    (h : ∀ x, ¬(p x = true ∧ q x = true)) :
    (l.filter p).length + (l.filter q).length ≤ l.length := by
  induction l with
  | nil => simp
  | cons a t ih =>
    rw [List.filter_cons, List.filter_cons]
    by_cases hp : p a
    · have hq : ¬ q a = true := fun hq => h a ⟨hp, hq⟩
      simp only [hp, hq, if_true, if_false, Bool.false_eq_true, List.length_cons]
      omega
    · by_cases hq : q a <;>
        simp only [hp, hq, if_true, if_false, Bool.false_eq_true, List.length_cons] <;>
        omega

theorem count_nonlast_le (runDays : List ℕ) :
    ((List.range 7).filter fun d => runDays.contains d && d != runDays.getLastD 7).length
      ≤ runDays.length - 1 := by
  rcases eq_or_ne runDays [] with rfl | hne
  · simp
  · have hlastmem : runDays.getLastD 7 ∈ runDays := by
      rw [List.getLastD_eq_getLast?, List.getLast?_eq_getLast _ hne]
      exact List.getLast_mem hne
    have hsub : ∀ x ∈ (List.range 7).filter
        (fun d => runDays.contains d && d != runDays.getLastD 7),
        x ∈ runDays.dedup.filter (fun y => y != runDays.getLastD 7) := by
      intro x hx
      rw [List.mem_filter] at hx ⊢
      rw [Bool.and_eq_true] at hx
      exact ⟨List.mem_dedup.mpr (by simpa using hx.2.1), hx.2.2⟩
    have hnd : ((List.range 7).filter
        fun d => runDays.contains d && d != runDays.getLastD 7).Nodup :=
      (List.nodup_range 7).filter _
    have h3 := (hnd.subperm hsub).length_le
    have h4 : (runDays.dedup.filter fun y => y != runDays.getLastD 7).length
        < runDays.dedup.length := by
      rw [List.length_filter_lt_length_iff_exists]
      exact ⟨runDays.getLastD 7, List.mem_dedup.mpr hlastmem, by simp⟩
    have h5 : runDays.dedup.length ≤ runDays.length := (List.dedup_sublist _).length_le
    omega

theorem otherRunDistanceOf_nonneg {W : ℚ} (hW : 0 ≤ W) (runDays : List ℕ) :
    0 ≤ otherRunDistanceOf W runDays := by
  simp only [otherRunDistanceOf]
  split
  · apply round1_nonneg
    apply div_nonneg (by linarith)
    exact_mod_cast Nat.zero_le _
  · exact le_refl 0

theorem sum_seven_distances_le (runDays : List ℕ) {W : ℚ} (hW : 0 ≤ W) :
    ((List.range 7).map fun d =>
        (if d ∈ runDays then
          (if d = runDays.getLastD 7 then some (round1 (W * 0.35))
           else some (otherRunDistanceOf W runDays))
         else none).getD 0).sum ≤ W + 7 / 20 := by
  have hL0 : 0 ≤ round1 (W * 0.35) := round1_nonneg (by nlinarith)
  have hD0 : 0 ≤ otherRunDistanceOf W runDays := otherRunDistanceOf_nonneg hW runDays
  have hLle : round1 (W * 0.35) ≤ W * 0.35 + 1 / 20 := round1_le _
  have hfun : ∀ d ∈ List.range 7,
      ((if d ∈ runDays then
          (if d = runDays.getLastD 7 then some (round1 (W * 0.35))
           else some (otherRunDistanceOf W runDays))
         else none).getD 0)
        = (fun d => (if runDays.contains d && d == runDays.getLastD 7
              then round1 (W * 0.35) else 0)
            + (if runDays.contains d && d != runDays.getLastD 7
              then otherRunDistanceOf W runDays else 0)) d := by
    intro d _
    have hgl : runDays.getLastD 7 = runDays.getLast?.getD 7 := List.getLastD_eq_getLast? _ _
    by_cases h1 : d ∈ runDays
    · by_cases h2 : d = runDays.getLastD 7
      · subst h2
        rw [if_pos h1, if_pos rfl, Option.getD_some]
        have h1' : runDays.getLast?.getD 7 ∈ runDays := by rw [← hgl]; exact h1
        simp [h1']
      · rw [if_pos h1, if_neg h2, Option.getD_some]
        have h2' : ¬ d = runDays.getLast?.getD 7 := by rw [← hgl]; exact h2
        simp [h1, h2']
    · rw [if_neg h1]
      simp [h1]
  rw [List.map_congr_left hfun, sum_map_split, sum_map_ite_const, sum_map_ite_const]
  set c1 := ((List.range 7).filter
    fun d => runDays.contains d && d == runDays.getLastD 7).length with hc1def
  set c2 := ((List.range 7).filter
    fun d => runDays.contains d && d != runDays.getLastD 7).length with hc2def
  have hc1 : c1 ≤ 1 := by
    apply length_le_one_of_all_eq ((List.nodup_range 7).filter _)
    intro x hx
    rw [List.mem_filter, Bool.and_eq_true] at hx
    simpa using hx.2.2
  have hc2 : c2 ≤ runDays.length - 1 := count_nonlast_le runDays
  have hc12 : c1 + c2 ≤ 7 := by
    have hdisj : ∀ x : ℕ, ¬((runDays.contains x && x == runDays.getLastD 7) = true
        ∧ (runDays.contains x && x != runDays.getLastD 7) = true) := by
      intro x ⟨ha, hb⟩
      rw [Bool.and_eq_true] at ha hb
      exact absurd ha.2 (by simpa using hb.2)
    have h70 := filter_disjoint_length_le (List.range 7)
      (fun d => runDays.contains d && d == runDays.getLastD 7)
      (fun d => runDays.contains d && d != runDays.getLastD 7) hdisj
    rw [List.length_range] at h70
    omega
  rcases Nat.eq_zero_or_pos (runDays.length - 1) with hzero | hposo
  · have hc20 : c2 = 0 := by omega
    rcases Nat.le_one_iff_eq_zero_or_eq_one.mp hc1 with h | h <;>
      rw [h, hc20] <;> push_cast <;> nlinarith
  · have hDle : otherRunDistanceOf W runDays
        ≤ (W - W * 0.35) / ((runDays.length - 1 : ℕ) : ℚ) + 1 / 20 := by
      simp only [otherRunDistanceOf]
      rw [if_pos hposo]
      exact round1_le _
    have hcast : (0 : ℚ) < ((runDays.length - 1 : ℕ) : ℚ) := by exact_mod_cast hposo
    have hc2o : (c2 : ℚ) ≤ ((runDays.length - 1 : ℕ) : ℚ) := by exact_mod_cast hc2
    have hX : (0 : ℚ) ≤ W - W * 0.35 := by linarith
    have hkey : (c2 : ℚ) * otherRunDistanceOf W runDays
        ≤ (W - W * 0.35) + (c2 : ℚ) * (1 / 20) := by
      have h1 : (c2 : ℚ) * otherRunDistanceOf W runDays
          ≤ (c2 : ℚ) * ((W - W * 0.35) / ((runDays.length - 1 : ℕ) : ℚ) + 1 / 20) :=
        mul_le_mul_of_nonneg_left hDle (Nat.cast_nonneg c2)
      have h2 : (c2 : ℚ) * ((W - W * 0.35) / ((runDays.length - 1 : ℕ) : ℚ))
          ≤ W - W * 0.35 := by
        rw [mul_div_assoc']
        rw [div_le_iff₀ hcast]
        nlinarith
      nlinarith
    rcases Nat.le_one_iff_eq_zero_or_eq_one.mp hc1 with h | h
    · rw [h]
      have hc27 : (c2 : ℚ) ≤ 7 := by exact_mod_cast (by omega : c2 ≤ 7)
      push_cast
      nlinarith
    · rw [h]
      have hc26 : (c2 : ℚ) ≤ 6 := by exact_mod_cast (by omega : c2 ≤ 6)
      push_cast
      nlinarith

theorem generateWorkout_distance_getD_nonneg (phase : Phase) (d : ℕ) {W : ℚ}
    (hW : 0 ≤ W) (m : DetailedTrainingMetrics) (rd : RaceDistance) (rpw : ℕ)
    (c : Option (List ℕ)) :
    0 ≤ (generateWorkout phase d W m rd rpw c).distance.getD 0 := by
  rw [generateWorkout_distance_eq]
  by_cases h1 : d ∈ runDaysFor rpw c
  · by_cases h2 : d = (runDaysFor rpw c).getLastD 7
    · rw [if_pos h1, if_pos h2, Option.getD_some]
      exact round1_nonneg (by nlinarith : (0 : ℚ) ≤ W * 0.35)
    · rw [if_pos h1, if_neg h2, Option.getD_some]
      exact otherRunDistanceOf_nonneg hW (runDaysFor rpw c)
  · rw [if_neg h1]
    norm_num

theorem maxWeeklyKm_nonneg (rd : RaceDistance) : (0 : ℚ) ≤ maxWeeklyKm rd := by
  cases rd <;> norm_num [maxWeeklyKm]

theorem assignedWeeklyKilometersPre_nonneg (wn wur : ℕ) {base : ℚ} (rd : RaceDistance)
    {prev : Option ℚ} (hbase : 0 ≤ base) (hprev : ∀ q, prev = some q → 0 ≤ q) :
    0 ≤ assignedWeeklyKilometersPre wn wur base rd prev := by
  have hprev0 : 0 ≤ prev.getD 0 := by
    cases prev with
    | none => norm_num
    | some q => exact hprev q rfl
  unfold assignedWeeklyKilometersPre
  split_ifs with h1 h2 h3
  · nlinarith
  · simp only [targetWeeklyKilometersOf, h2]
    split_ifs <;> nlinarith
  · exact le_min (by nlinarith) (maxWeeklyKm_nonneg rd)
  · nlinarith

theorem generateWeeklyPlan_total_nonneg (wn wur : ℕ) {base : ℚ}
    (m : DetailedTrainingMetrics) (rd : RaceDistance) (rpw : ℕ) (c : Option (List ℕ))
    {prev : Option ℚ} (sd : Option ℤ) (now : ℤ) (hbase : 0 ≤ base)
    (hprev : ∀ q, prev = some q → 0 ≤ q) :
    0 ≤ (generateWeeklyPlan wn wur base m rd rpw c prev sd now).totalKilometers := by
  have htot : (generateWeeklyPlan wn wur base m rd rpw c prev sd now).totalKilometers
      = round1 (((weekWorkouts wn wur base m rd rpw c prev).map
          fun w => w.distance.getD 0).sum) := rfl
  rw [htot]
  apply round1_nonneg
  apply List.sum_nonneg
  intro x hx
  obtain ⟨w, hw, rfl⟩ := List.mem_map.mp hx
  have hW0 : 0 ≤ assignedWeeklyKilometers wn wur base rd prev :=
    round1_nonneg (assignedWeeklyKilometersPre_nonneg wn wur rd hbase hprev)
  simp only [weekWorkouts] at hw
  have hgen : ∀ w', w' ∈ (List.range 7).map (fun day =>
      generateWorkout (phaseOf wn wur) day (assignedWeeklyKilometers wn wur base rd prev)
        m rd rpw c) → 0 ≤ w'.distance.getD 0 := by
    intro w' hw'
    obtain ⟨day, -, rfl⟩ := List.mem_map.mp hw'
    exact generateWorkout_distance_getD_nonneg _ day hW0 m rd rpw c
  by_cases hc1 : weeksRemainingOf wn wur = 1
  · rw [if_pos hc1] at hw
    rcases List.mem_or_eq_of_mem_set hw with hw2 | rfl
    · exact hgen w hw2
    · simp only [raceDayWorkout, Option.getD_some]
      cases rd <;> norm_num [RACE_DISTANCES]
  · rw [if_neg hc1] at hw
    exact hgen w hw

/-- The simplified actual-assignment rule in the plus-ten-percent case: not a
recovery week, not taper, truthy previous total. -/
theorem assignedWeeklyKilometersPre_tenPercent (wn wur : ℕ) (base : ℚ)
    (rd : RaceDistance) (p : ℚ) (hpne : p ≠ 0)
    (hrem : 2 < weeksRemainingOf wn wur)
    (hrec : isRecoveryWeekOf wn wur = false) :
    assignedWeeklyKilometersPre wn wur base rd (some p)
      = min (p * 1.10) (maxWeeklyKm rd) := by
  have htruthy : jsTruthyNum (some p) = true := by simp [jsTruthyNum, hpne]
  have hphase : ¬ (phaseOf wn wur = .taper) := by
    unfold phaseOf
    rw [if_neg (by omega)]
    split_ifs <;> simp
  unfold assignedWeeklyKilometersPre
  rw [hrec]
  simp [hphase, htruthy]

/-- The weekly progression bound: in a non-recovery, non-taper week whose
previous total p is truthy, the reported total is at most p × 1.10 plus the
accumulated one-decimal rounding slack 9/20 (one rounding of the assigned
volume, up to seven per-day roundings, one final rounding of the sum), and at
most the per-distance hard cap plus the same slack. -/
theorem generateWeeklyPlan_total_le (wn wur : ℕ) (base : ℚ)
    (m : DetailedTrainingMetrics) (rd : RaceDistance) (rpw : ℕ) (c : Option (List ℕ))
    (p : ℚ) (sd : Option ℤ) (now : ℤ) (hp0 : 0 ≤ p) (hpne : p ≠ 0)
    (hrem : 2 < weeksRemainingOf wn wur)
    (hrec : isRecoveryWeekOf wn wur = false) :
    (generateWeeklyPlan wn wur base m rd rpw c (some p) sd now).totalKilometers
      ≤ p * 1.10 + 9 / 20 ∧
    (generateWeeklyPlan wn wur base m rd rpw c (some p) sd now).totalKilometers
      ≤ maxWeeklyKm rd + 9 / 20 := by
  have hpre := assignedWeeklyKilometersPre_tenPercent wn wur base rd p hpne hrem hrec
  have hpre0 : 0 ≤ assignedWeeklyKilometersPre wn wur base rd (some p) := by
    rw [hpre]
    exact le_min (by nlinarith) (maxWeeklyKm_nonneg rd)
  have hW0 : 0 ≤ assignedWeeklyKilometers wn wur base rd (some p) := round1_nonneg hpre0
  have hWle : assignedWeeklyKilometers wn wur base rd (some p)
      ≤ min (p * 1.10) (maxWeeklyKm rd) + 1 / 20 := by
    have h1 : assignedWeeklyKilometers wn wur base rd (some p)
        = round1 (assignedWeeklyKilometersPre wn wur base rd (some p)) := rfl
    rw [h1, hpre]
    exact round1_le _
  have htot : (generateWeeklyPlan wn wur base m rd rpw c (some p) sd now).totalKilometers
      = round1 (((weekWorkouts wn wur base m rd rpw c (some p)).map
          fun w => w.distance.getD 0).sum) := rfl
  have hwo : weekWorkouts wn wur base m rd rpw c (some p)
      = (List.range 7).map fun day =>
          generateWorkout (phaseOf wn wur) day
            (assignedWeeklyKilometers wn wur base rd (some p)) m rd rpw c := by
    simp only [weekWorkouts]
    rw [if_neg (by omega)]
  have hsum : (((List.range 7).map fun day =>
      generateWorkout (phaseOf wn wur) day
        (assignedWeeklyKilometers wn wur base rd (some p)) m rd rpw c).map
      (fun w => w.distance.getD 0)).sum
      ≤ assignedWeeklyKilometers wn wur base rd (some p) + 7 / 20 := by
    rw [List.map_map]
    have heq : ∀ d ∈ List.range 7,
        ((fun w : Workout => w.distance.getD 0) ∘ fun day =>
          generateWorkout (phaseOf wn wur) day
            (assignedWeeklyKilometers wn wur base rd (some p)) m rd rpw c) d
          = (fun d => (if d ∈ runDaysFor rpw c then
              (if d = (runDaysFor rpw c).getLastD 7
               then some (round1 (assignedWeeklyKilometers wn wur base rd (some p) * 0.35))
               else some (otherRunDistanceOf
                 (assignedWeeklyKilometers wn wur base rd (some p)) (runDaysFor rpw c)))
             else none).getD 0) d := by
      intro d _
      simp only [Function.comp]
      rw [generateWorkout_distance_eq]
    rw [List.map_congr_left heq]
    exact sum_seven_distances_le (runDaysFor rpw c) hW0
  have hr1 := round1_le (((weekWorkouts wn wur base m rd rpw c (some p)).map
    fun w => w.distance.getD 0).sum)
  rw [hwo] at hr1
  rw [htot, hwo]
  have hmin1 := min_le_left (p * 1.10) (maxWeeklyKm rd)
  have hmin2 := min_le_right (p * 1.10) (maxWeeklyKm rd)
  constructor
  · linarith
  · linarith

theorem planWeeksAux_succ (W : ℕ) (base : ℚ) (m : DetailedTrainingMetrics)
    (rd : RaceDistance) (rpw : ℕ) (c : Option (List ℕ)) (sd : Option ℤ) (now : ℤ)
    (n : ℕ) :
    planWeeksAux W base m rd rpw c sd now (n + 1)
      = planWeeksAux W base m rd rpw c sd now n
        ++ [generateWeeklyPlan (n + 1) W base m rd rpw c
            (if n + 1 > 1 then
              ((planWeeksAux W base m rd rpw c sd now n).getLast?).map
                (fun w => w.totalKilometers)
             else none) sd now] := rfl

theorem planWeeksAux_length (W : ℕ) (base : ℚ) (m : DetailedTrainingMetrics)
    (rd : RaceDistance) (rpw : ℕ) (c : Option (List ℕ)) (sd : Option ℤ) (now : ℤ)
    (k : ℕ) : (planWeeksAux W base m rd rpw c sd now k).length = k := by
  induction k with
  | zero => rfl
  | succ n ih => rw [planWeeksAux_succ, List.length_append, ih]; rfl

theorem planWeeksAux_extends (W : ℕ) (base : ℚ) (m : DetailedTrainingMetrics)
    (rd : RaceDistance) (rpw : ℕ) (c : Option (List ℕ)) (sd : Option ℤ) (now : ℤ)
    {k j : ℕ} (h : k ≤ j) :
    ∃ t, planWeeksAux W base m rd rpw c sd now j
      = planWeeksAux W base m rd rpw c sd now k ++ t := by
  induction j with
  | zero =>
    obtain rfl : k = 0 := Nat.le_zero.mp h
    exact ⟨[], (List.append_nil _).symm⟩
  | succ n ih =>
    by_cases hk : k = n + 1
    · subst hk
      exact ⟨[], (List.append_nil _).symm⟩
    · obtain ⟨t, ht⟩ := ih (by omega)
      rw [planWeeksAux_succ, ht, List.append_assoc]
      exact ⟨_, rfl⟩

theorem planWeeksAux_getD_stable (W : ℕ) (base : ℚ) (m : DetailedTrainingMetrics)
    (rd : RaceDistance) (rpw : ℕ) (c : Option (List ℕ)) (sd : Option ℤ) (now : ℤ)
    {n j : ℕ} (hnj : n < j) :
    (planWeeksAux W base m rd rpw c sd now j).getD n defaultWeeklyPlan
      = (planWeeksAux W base m rd rpw c sd now (n + 1)).getD n defaultWeeklyPlan := by
  obtain ⟨t, ht⟩ := planWeeksAux_extends W base m rd rpw c sd now (show n + 1 ≤ j from hnj)
  rw [ht, List.getD_append _ _ _ _ (by rw [planWeeksAux_length]; omega)]

theorem planWeeksAux_getD_succ (W : ℕ) (base : ℚ) (m : DetailedTrainingMetrics)
    (rd : RaceDistance) (rpw : ℕ) (c : Option (List ℕ)) (sd : Option ℤ) (now : ℤ)
    (n : ℕ) :
    (planWeeksAux W base m rd rpw c sd now (n + 1)).getD n defaultWeeklyPlan
      = generateWeeklyPlan (n + 1) W base m rd rpw c
          (if n + 1 > 1 then
            ((planWeeksAux W base m rd rpw c sd now n).getLast?).map
              (fun w => w.totalKilometers)
           else none) sd now := by
  rw [planWeeksAux_succ,
    List.getD_append_right _ _ _ _ (le_of_eq (planWeeksAux_length W base m rd rpw c sd now n)),
    planWeeksAux_length]
  simp

theorem planWeeksAux_getLast?_eq (W : ℕ) (base : ℚ) (m : DetailedTrainingMetrics)
    (rd : RaceDistance) (rpw : ℕ) (c : Option (List ℕ)) (sd : Option ℤ) (now : ℤ)
    {n : ℕ} (hn : 0 < n) :
    (planWeeksAux W base m rd rpw c sd now n).getLast?
      = some ((planWeeksAux W base m rd rpw c sd now n).getD (n - 1) defaultWeeklyPlan) := by
  rw [List.getLast?_eq_getElem?, planWeeksAux_length,
    List.getElem?_eq_getElem (by rw [planWeeksAux_length]; omega),
    List.getD_eq_getElem _ _ (by rw [planWeeksAux_length]; omega)]

theorem planWeeksAux_total_nonneg (W : ℕ) {base : ℚ} (m : DetailedTrainingMetrics)
    (rd : RaceDistance) (rpw : ℕ) (c : Option (List ℕ)) (sd : Option ℤ) (now : ℤ)
    (hbase : 0 ≤ base) (k : ℕ) :
    ∀ w ∈ planWeeksAux W base m rd rpw c sd now k, 0 ≤ w.totalKilometers := by
  induction k with
  | zero => intro w hw; cases hw
  | succ n ih =>
    intro w hw
    rw [planWeeksAux_succ] at hw
    rcases List.mem_append.mp hw with hw1 | hw2
    · exact ih w hw1
    · rw [List.mem_singleton] at hw2
      subst hw2
      apply generateWeeklyPlan_total_nonneg _ _ m rd rpw c sd now hbase
      intro q hq
      by_cases hgt : n + 1 > 1
      · rw [if_pos hgt] at hq
        obtain ⟨w', hw', hw'q⟩ := Option.map_eq_some'.mp hq
        rw [planWeeksAux_getLast?_eq W base m rd rpw c sd now (by omega : 0 < n)] at hw'
        obtain rfl := Option.some.inj hw'
        rw [← hw'q]
        apply ih
        rw [List.getD_eq_getElem _ _ (by rw [planWeeksAux_length]; omega)]
        exact List.getElem_mem _
      · rw [if_neg hgt] at hq
        exact absurd hq (by simp)

theorem baseWeeklyKilometersOf_nonneg (m : DetailedTrainingMetrics) (rd : RaceDistance) :
    0 ≤ baseWeeklyKilometersOf m rd := by
  have hrm : (0 : ℚ) ≤ reasonableMax rd := by cases rd <;> norm_num [reasonableMax]
  simp only [baseWeeklyKilometersOf]
  split_ifs with h1 h2 h3
  · exact hrm
  · norm_num
  · exact hrm
  · linarith [not_lt.mp h1]

/-- C3: in every generated plan, a week that is neither a recovery week nor a
taper week, whose reported total for the preceding week is known in the sense
of the truthiness test in the code (nonzero), reports a total of at most that
total × 1.10 plus the accumulated one-decimal rounding slack 9/20, and at most
the per-distance hard weekly cap (45/65/85/110) plus the same slack. -/
theorem c3_progression_ceiling_and_cap (now : ℤ) (goal : RaceGoal)
    (metrics : DetailedTrainingMetrics) (pft : Option String) (i : ℕ)
    (hi : i + 1 < (generateTrainingPlan now goal metrics pft).plan.length)
    (hrem : 2 < weeksRemainingOf (i + 2) (generateTrainingPlan now goal metrics pft).plan.length)
    (hrec : isRecoveryWeekOf (i + 2) (generateTrainingPlan now goal metrics pft).plan.length
      = false)
    (hne : ((generateTrainingPlan now goal metrics pft).plan.getD i
        defaultWeeklyPlan).totalKilometers ≠ 0) :
    ((generateTrainingPlan now goal metrics pft).plan.getD (i + 1)
        defaultWeeklyPlan).totalKilometers
      ≤ ((generateTrainingPlan now goal metrics pft).plan.getD i
          defaultWeeklyPlan).totalKilometers * 1.10 + 9 / 20 ∧
    ((generateTrainingPlan now goal metrics pft).plan.getD (i + 1)
        defaultWeeklyPlan).totalKilometers
      ≤ maxWeeklyKm goal.distance + 9 / 20 := by
  have hplan : (generateTrainingPlan now goal metrics pft).plan
      = planWeeksAux (getWeeksUntilRace now goal.date goal.startDate).toNat
          (baseWeeklyKilometersOf metrics goal.distance) metrics goal.distance
          goal.runsPerWeek goal.trainingDays goal.startDate now
          (getWeeksUntilRace now goal.date goal.startDate).toNat := rfl
  have hlen : (generateTrainingPlan now goal metrics pft).plan.length
      = (getWeeksUntilRace now goal.date goal.startDate).toNat := by
    rw [hplan, planWeeksAux_length]
  have hbase0 := baseWeeklyKilometersOf_nonneg metrics goal.distance
  have hival : i + 1 < (getWeeksUntilRace now goal.date goal.startDate).toNat := by
    rw [← hlen]; exact hi
  have hgd1 : (generateTrainingPlan now goal metrics pft).plan.getD (i + 1) defaultWeeklyPlan
      = generateWeeklyPlan (i + 2) (getWeeksUntilRace now goal.date goal.startDate).toNat
          (baseWeeklyKilometersOf metrics goal.distance) metrics goal.distance
          goal.runsPerWeek goal.trainingDays
          (some (((generateTrainingPlan now goal metrics pft).plan.getD i
            defaultWeeklyPlan).totalKilometers))
          goal.startDate now := by
    rw [hplan, planWeeksAux_getD_stable _ _ _ _ _ _ _ _ hival, planWeeksAux_getD_succ]
    rw [if_pos (by omega : i + 1 + 1 > 1)]
    rw [planWeeksAux_getLast?_eq _ _ _ _ _ _ _ _ (by omega : 0 < i + 1)]
    rw [Option.map_some']
    have hstable : (planWeeksAux (getWeeksUntilRace now goal.date goal.startDate).toNat
          (baseWeeklyKilometersOf metrics goal.distance) metrics goal.distance
          goal.runsPerWeek goal.trainingDays goal.startDate now (i + 1)).getD (i + 1 - 1)
          defaultWeeklyPlan
        = (generateTrainingPlan now goal metrics pft).plan.getD i defaultWeeklyPlan := by
      rw [hplan, planWeeksAux_getD_stable _ _ _ _ _ _ _ _ (by omega : i < (getWeeksUntilRace
        now goal.date goal.startDate).toNat)]
      rfl
    rw [hstable, hplan]
  have hprev0 : 0 ≤ ((generateTrainingPlan now goal metrics pft).plan.getD i
      defaultWeeklyPlan).totalKilometers := by
    rw [hplan]
    apply planWeeksAux_total_nonneg _ _ _ _ _ _ _ hbase0
    rw [List.getD_eq_getElem _ _ (by rw [planWeeksAux_length]; omega)]
    exact List.getElem_mem _
  rw [hgd1]
  exact generateWeeklyPlan_total_le (i + 2)
    (getWeeksUntilRace now goal.date goal.startDate).toNat
    (baseWeeklyKilometersOf metrics goal.distance) metrics goal.distance
    goal.runsPerWeek goal.trainingDays _ goal.startDate now hprev0 hne
    (by rw [← hlen]; exact hrem) (by rw [← hlen]; exact hrec)

/-- C3 witness: weeks 1 and 2 of the 16-week 10K plan (week 2 is neither a
recovery nor a taper week and the week 1 total 9.6 is nonzero): 10.5 is at most
9.6 × 1.10 + 9/20 and at most 65 + 9/20. -/
theorem c3_progression_ceiling_and_cap_witness :
    (plan16.plan.getD 1 defaultWeeklyPlan).totalKilometers
      ≤ (plan16.plan.getD 0 defaultWeeklyPlan).totalKilometers * 1.10 + 9 / 20 ∧
    (plan16.plan.getD 1 defaultWeeklyPlan).totalKilometers
      ≤ maxWeeklyKm goal16.distance + 9 / 20 :=
  c3_progression_ceiling_and_cap 0 goal16 metrics0 none 0
    (by with_unfolding_all decide) (by with_unfolding_all decide)
    (by with_unfolding_all decide) (by with_unfolding_all decide)

end Runnr
